import Mathlib

/-!
The resizable hardware-plane item of qtviewplanes and its software twin.

A shallow embedding of `src/main.cpp` (classes `MyGraphicsItem` and
`MyGraphicsPlaneItem`) together with the small part of Qt's `QRectF` and of
the plane library that these classes call.

Conventions of the embedding:

* `qreal` (a C++ `double`) is idealised as an exact rational: there is no
  rounding, no infinity and no NaN.
* `uint32_t` and `int` are natural numbers and integers with an explicit
  reduction modulo `2^32`.
* Every member function becomes a function from the object before the call to
  the object after it.  Members keep their source names.
* `calls` is instrumentation: the sequence of plane-library calls and repaints
  the item has made so far.  It is not a member of the C++ class.
* Pixels are not modelled: `draw` is recorded with what it was asked to paint.
* `QRectF` follows the implementation of Qt 5 (`qrect.cpp`).
* The handlers of the base classes (`QGraphicsItem`, `GraphicsPlaneItem`), which
  the mouse handlers and `itemChange` call last, move and select the item; they
  are taken to leave every member modelled here as it is.  A change of the
  selection reaches the item as a separate `itemChange` event.
-/

namespace QtViewPlanes

/-! ## Qt value types -/

/-- Qt's `QPointF`: a point with `qreal` coordinates. -/
structure QPointF where
  xp : ℚ
  yp : ℚ
  deriving DecidableEq

/-- Qt's `QRectF`: a top-left corner with a width and a height, any of which
may be negative. -/
structure QRectF where
  xp : ℚ
  yp : ℚ
  w : ℚ
  h : ℚ
  deriving DecidableEq

namespace QRectF

/-- The default-constructed rectangle, `QRectF()`. -/
def null : QRectF := ⟨0, 0, 0, 0⟩

/-- Qt's `QRectF::isNull`: width and height are both zero. -/
def isNull (r : QRectF) : Bool := decide (r.w = 0) && decide (r.h = 0)

/-- Qt's `QRectF::isEmpty`: width or height is not positive. -/
def isEmpty (r : QRectF) : Bool := decide (r.w ≤ 0) || decide (r.h ≤ 0)

/-- The smaller of the two vertical edges (Qt normalises a negative width). -/
def leftEdge (r : QRectF) : ℚ := if r.w < 0 then r.xp + r.w else r.xp

/-- The larger of the two vertical edges. -/
def rightEdge (r : QRectF) : ℚ := if r.w < 0 then r.xp else r.xp + r.w

/-- The smaller of the two horizontal edges. -/
def topEdge (r : QRectF) : ℚ := if r.h < 0 then r.yp + r.h else r.yp

/-- The larger of the two horizontal edges. -/
def bottomEdge (r : QRectF) : ℚ := if r.h < 0 then r.yp else r.yp + r.h

/-- Qt's `QRectF::united` (`operator|`): the bounding rectangle of both, where a
null rectangle is neutral. -/
def united (a b : QRectF) : QRectF :=
  if a.isNull then b
  else if b.isNull then a
  else
    let left := min a.leftEdge b.leftEdge
    let right := max a.rightEdge b.rightEdge
    let top := min a.topEdge b.topEdge
    let bottom := max a.bottomEdge b.bottomEdge
    ⟨left, top, right - left, bottom - top⟩

/-- Qt's `QRectF::contains(const QPointF&)`: edges included; a rectangle of zero
width or zero height contains nothing. -/
def contains (r : QRectF) (p : QPointF) : Bool :=
  if r.leftEdge = r.rightEdge then false
  else if p.xp < r.leftEdge ∨ p.xp > r.rightEdge then false
  else if r.topEdge = r.bottomEdge then false
  else if p.yp < r.topEdge ∨ p.yp > r.bottomEdge then false
  else true

/-- Qt's `QRectF::contains(const QRectF&)`: the argument lies inside, edges
included; false when either rectangle has zero width or zero height. -/
def containsRect (r a : QRectF) : Bool :=
  if r.leftEdge = r.rightEdge then false
  else if a.leftEdge = a.rightEdge then false
  else if a.leftEdge < r.leftEdge ∨ a.rightEdge > r.rightEdge then false
  else if r.topEdge = r.bottomEdge then false
  else if a.topEdge = a.bottomEdge then false
  else if a.topEdge < r.topEdge ∨ a.bottomEdge > r.bottomEdge then false
  else true

end QRectF

/-! ## Integer conversions of C++ -/

/-- Conversion of a `double` to an integer type drops the fraction (rounds
towards zero). -/
def truncate (q : ℚ) : Int := if 0 ≤ q then ⌊q⌋ else -⌊-q⌋

/-- A `qreal` passed where a `uint32_t` is expected.  C++ defines the result
only for values whose truncation fits; outside that range the embedding wraps
modulo `2^32`. -/
def toUInt32 (q : ℚ) : Nat := (truncate q % 2 ^ 32).toNat

/-- The cast `(int)u` of a `uint32_t`. -/
def toInt (u : Nat) : Int :=
  if u % 2 ^ 32 < 2 ^ 31 then ((u % 2 ^ 32 : Nat) : Int) else ((u % 2 ^ 32 : Nat) : Int) - 2 ^ 32

/-! ## Events delivered by the host -/

/-- The part of `QGraphicsSceneMouseEvent` the handlers read. -/
structure QGraphicsSceneMouseEvent where
  /-- Whether `buttons() & Qt::LeftButton` is non-zero. -/
  leftButton : Bool
  /-- Result of `pos()`: the position in item coordinates. -/
  pos : QPointF
  /-- Result of `scenePos()`: the position in scene coordinates. -/
  scenePos : QPointF

/-- The values of `Qt::GestureState`. -/
inductive GestureState where
  | NoGesture
  | GestureStarted
  | GestureUpdated
  | GestureFinished
  | GestureCanceled
  deriving DecidableEq

/-- The part of `QPinchGesture` that `pinchTriggered` reads. -/
structure QPinchGesture where
  state : GestureState
  totalScaleFactor : ℚ

/-- Side of the grip square: `static auto GRIP_SIZE = 50;`. -/
def GRIP_SIZE : ℚ := 50

/-- The rectangle both `mousePressEvent` handlers build:
`QRectF rect(m_bounding.width()-GRIP_SIZE, m_bounding.height()-GRIP_SIZE, GRIP_SIZE, GRIP_SIZE)`. -/
def gripRect (bounding : QRectF) : QRectF :=
  ⟨bounding.w - GRIP_SIZE, bounding.h - GRIP_SIZE, GRIP_SIZE, GRIP_SIZE⟩

/-! ## The software item: `MyGraphicsItem` -/

/-- State of a `MyGraphicsItem`.  `scale` and `movable` are the values the
`QGraphicsItem` base keeps for `scale()` and for the flag `ItemIsMovable`.
The member `m_distanceFromCenter` is written by `mousePressEvent` and read
nowhere; it is left out. -/
structure MyGraphicsItem where
  m_offset : QPointF
  m_bounding : QRectF
  m_boundingOrig : QRectF
  m_resize : Bool
  m_gestureResize : Bool
  m_startScale : ℚ
  scale : ℚ
  movable : Bool

namespace MyGraphicsItem

/-- Constructor `MyGraphicsItem(bounding)`.  `m_startScale` has no initialiser
in the source, so the value it happens to hold is an argument here; `m_offset`
and `m_boundingOrig` are default-constructed; a new `QGraphicsItem` has scale
one, and the constructor sets `ItemIsMovable`. -/
def init (bounding : QRectF) (startScale : ℚ) : MyGraphicsItem :=
  { m_offset := ⟨0, 0⟩
    m_bounding := bounding
    m_boundingOrig := QRectF.null
    m_resize := false
    m_gestureResize := false
    m_startScale := startScale
    scale := 1
    movable := true }

/-- Member `setSize(bounding)`. -/
def setSize (bounding : QRectF) (s : MyGraphicsItem) : MyGraphicsItem :=
  { s with m_bounding := bounding }

/-- Member `boundingRect()`. -/
def boundingRect (s : MyGraphicsItem) : QRectF := s.m_bounding

/-- Member `mousePressEvent(event)`.  The final call of the base handler
changes no member of this class. -/
def mousePressEvent (event : QGraphicsSceneMouseEvent) (s : MyGraphicsItem) : MyGraphicsItem :=
  if !s.m_resize && event.leftButton then
    if (gripRect s.m_bounding).contains event.pos then
      { s with m_resize := true, m_offset := event.scenePos, m_boundingOrig := s.m_bounding }
    else s
  else s

/-- Member `pinchTriggered(pinch)`. -/
def pinchTriggered (pinch : QPinchGesture) (s : MyGraphicsItem) : MyGraphicsItem :=
  let s := { s with m_resize := false }
  match pinch.state with
  | .GestureStarted => { s with m_gestureResize := true, m_startScale := s.scale, movable := false }
  | .GestureUpdated => { s with scale := pinch.totalScaleFactor * s.m_startScale }
  | .GestureFinished => { s with m_gestureResize := false, movable := true }
  | .GestureCanceled => { s with m_gestureResize := false, movable := true }
  | .NoGesture => s

/-- Member `mouseMoveEvent(event)`.  Without a resize in progress the event
goes to the base handler, which changes no member of this class. -/
def mouseMoveEvent (event : QGraphicsSceneMouseEvent) (s : MyGraphicsItem) : MyGraphicsItem :=
  if s.m_resize && event.leftButton then
    let width := s.m_boundingOrig.w + (event.scenePos.xp - s.m_offset.xp)
    let height := s.m_boundingOrig.h + (event.scenePos.yp - s.m_offset.yp)
    if width > 0 ∧ height > 0 then
      { s with m_bounding := ⟨s.m_boundingOrig.xp, s.m_boundingOrig.yp, width, height⟩ }
    else s
  else s

/-- Member `mouseReleaseEvent(event)`. -/
def mouseReleaseEvent (_event : QGraphicsSceneMouseEvent) (s : MyGraphicsItem) : MyGraphicsItem :=
  { s with m_resize := false }

end MyGraphicsItem

/-! ## The plane library, as far as the item uses it -/

/-- What the item reads of `struct plane_data`: the size of the plane's
framebuffer, `plane_width(plane)` and `plane_height(plane)`, both `uint32_t`. -/
structure plane_data where
  width : Nat
  height : Nat
  deriving DecidableEq

/-- Modelled from the spec: `plane_fb_reallocate` belongs to the plane library,
which is not among the sources.  The spec gives
`reallocate(width, height, format) → success | AllocationFailure` with integer
sizes, and says that on failure the buffer size remains at its prior value.
`ok` is the answer the device gives to this request. -/
def plane_fb_reallocate (ok : Bool) (plane : plane_data) (width height : Nat) : plane_data :=
  if ok then ⟨width, height⟩ else plane

/-- The `QImage` wrapped around the mapped buffer; only its size is kept. -/
structure QImage where
  width : Nat
  height : Nat
  deriving DecidableEq

/-- One observable action of the plane item. -/
inductive Call where
  /-- A call `plane_fb_reallocate(m_plane, width, height, format)` and the device's answer. -/
  | fb_reallocate (width height : Nat) (ok : Bool)
  /-- A call `plane_fb_map(m_plane)`. -/
  | fb_map
  /-- A call `moveEvent(pos())`: the plane is put back at the item's position. -/
  | moveEvent
  /-- One run of `draw`: `m_dirty` and `m_bounding` on entry, the plane's buffer
  size at that moment, and the image painted into (`none` for a null `m_fb`). -/
  | draw (dirty bounding : QRectF) (bufWidth bufHeight : Nat) (fb : Option QImage)
  deriving DecidableEq

/-- Whether the call is a `plane_fb_reallocate`. -/
def Call.isReallocate : Call → Bool
  | .fb_reallocate _ _ _ => true
  | _ => false

/-- Whether the call is a run of `draw`. -/
def Call.isDraw : Call → Bool
  | .draw _ _ _ _ _ => true
  | _ => false

/-- Number of `plane_fb_reallocate` calls in a sequence of calls. -/
def reallocations (cs : List Call) : Nat := cs.countP Call.isReallocate

/-- Number of runs of `draw` in a sequence of calls. -/
def repaints (cs : List Call) : Nat := cs.countP Call.isDraw

/-! ## The hardware item: `MyGraphicsPlaneItem` -/

/-- Some values of `QGraphicsItem::GraphicsItemChange`. -/
inductive GraphicsItemChange where
  | ItemPositionHasChanged
  | ItemSelectedChange
  | ItemSelectedHasChanged
  | ItemScaleHasChanged
  deriving DecidableEq

/-- State of a `MyGraphicsPlaneItem`.  `m_plane` and `m_bounding` are the
members inherited from `GraphicsPlaneItem`; `scale` and `movable` are kept by
`QGraphicsItem`; `calls` is the record of what the item has done.
`m_distanceFromCenter` is written by `mousePressEvent` and read nowhere; it is
left out. -/
structure MyGraphicsPlaneItem where
  m_plane : plane_data
  m_bounding : QRectF
  m_offset : QPointF
  m_boundingOrig : QRectF
  m_resize : Bool
  m_focus : Bool
  m_dirty : QRectF
  m_fb : Option QImage
  m_gestureResize : Bool
  m_startScale : ℚ
  scale : ℚ
  movable : Bool
  calls : List Call

namespace MyGraphicsPlaneItem

/-- Modelled from the spec: `GraphicsPlaneItem::boundingRect` is declared in
`graphicsplaneitem.h`, which is not among the sources.  The spec's surface
exposes its current bounding; the software item's `boundingRect()` returns
`m_bounding`, and so does this one. -/
def boundingRect (s : MyGraphicsPlaneItem) : QRectF := s.m_bounding

/-- Member `reinit_painter()`: a fresh `QImage` over the plane's buffer. -/
def reinit_painter (s : MyGraphicsPlaneItem) : MyGraphicsPlaneItem :=
  { s with m_fb := some ⟨s.m_plane.width, s.m_plane.height⟩ }

/-- Member `draw(painter)`.  The scratch image and its pixels are not kept; the
run is recorded with what it found on entry. -/
def draw (s : MyGraphicsPlaneItem) : MyGraphicsPlaneItem :=
  let s1 := { s with calls := s.calls ++
    [Call.draw s.m_dirty s.boundingRect s.m_plane.width s.m_plane.height s.m_fb] }
  if !s.m_dirty.isNull then { s1 with m_dirty := QRectF.null } else s1

/-- Member `grow(bounding)`, with the branch the source compiles (`#if 1`).
`ok` is the device's answer should `plane_fb_reallocate` be called; the source
does not look at the value that call returns. -/
def grow (ok : Bool) (bounding : QRectF) (s : MyGraphicsPlaneItem) : MyGraphicsPlaneItem :=
  if ((toInt s.m_plane.width : ℚ) ≠ bounding.w) ∨ ((toInt s.m_plane.height : ℚ) ≠ bounding.h) then
    let bigger : QRectF := ⟨0, 0, bounding.w, bounding.h⟩
    let s := { s with
      m_plane := plane_fb_reallocate ok s.m_plane (toUInt32 bigger.w) (toUInt32 bigger.h)
      calls := s.calls ++ [Call.fb_reallocate (toUInt32 bigger.w) (toUInt32 bigger.h) ok] }
    let s := { s with calls := s.calls ++ [Call.fb_map] }
    let s := reinit_painter s
    let s := { s with calls := s.calls ++ [Call.moveEvent] }
    if s.m_dirty.isNull then { s with m_dirty := bigger }
    else { s with m_dirty := s.m_dirty.united bigger }
  else s

/-- Constructor `MyGraphicsPlaneItem(plane, bounding)`.  `plane` is the plane
as the item receives it; `m_startScale` has no initialiser in the source, so
the value it happens to hold is an argument; `ok` is the device's answer to
the reallocation `grow` may request. -/
def init (plane : plane_data) (bounding : QRectF) (startScale : ℚ) (ok : Bool) :
    MyGraphicsPlaneItem :=
  let s : MyGraphicsPlaneItem :=
    { m_plane := plane
      m_bounding := bounding
      m_offset := ⟨0, 0⟩
      m_boundingOrig := QRectF.null
      m_resize := false
      m_focus := false
      m_dirty := QRectF.null
      m_fb := none
      m_gestureResize := false
      m_startScale := startScale
      scale := 1
      movable := true
      calls := [] }
  let s := { s with m_dirty := ⟨0, 0, (s.m_plane.width : ℚ), (s.m_plane.height : ℚ)⟩ }
  let s := grow ok bounding s
  draw s

/-- Member `setSize(bounding)`. -/
def setSize (ok : Bool) (bounding : QRectF) (s : MyGraphicsPlaneItem) : MyGraphicsPlaneItem :=
  let s :=
    if s.m_dirty.isNull then { s with m_dirty := s.m_bounding }
    else { s with m_dirty := s.m_dirty.united s.m_bounding }
  let s := { s with m_bounding := bounding }
  let s := grow ok bounding s
  draw s

/-- Member `mousePressEvent(event)`.  The final call of the base handler
changes no member of this class. -/
def mousePressEvent (event : QGraphicsSceneMouseEvent) (s : MyGraphicsPlaneItem) :
    MyGraphicsPlaneItem :=
  if !s.m_resize && event.leftButton then
    if (gripRect s.m_bounding).contains event.pos then
      { s with m_resize := true, m_offset := event.scenePos, m_boundingOrig := s.m_bounding }
    else s
  else s

/-- Member `pinchTriggered(pinch)`. -/
def pinchTriggered (pinch : QPinchGesture) (s : MyGraphicsPlaneItem) : MyGraphicsPlaneItem :=
  let s := { s with m_resize := false }
  match pinch.state with
  | .GestureStarted => { s with m_gestureResize := true, m_startScale := s.scale, movable := false }
  | .GestureUpdated => { s with scale := pinch.totalScaleFactor * s.m_startScale }
  | .GestureFinished => { s with m_gestureResize := false, movable := true }
  | .GestureCanceled => { s with m_gestureResize := false, movable := true }
  | .NoGesture => s

/-- Member `mouseMoveEvent(event)`.  Without a resize in progress the event
goes to the base handler, which changes no member of this class. -/
def mouseMoveEvent (event : QGraphicsSceneMouseEvent) (s : MyGraphicsPlaneItem) :
    MyGraphicsPlaneItem :=
  if s.m_resize && event.leftButton then
    let width := s.m_boundingOrig.w + (event.scenePos.xp - s.m_offset.xp)
    let height := s.m_boundingOrig.h + (event.scenePos.yp - s.m_offset.yp)
    if width > 0 ∧ height > 0 then
      { s with m_bounding := ⟨s.m_boundingOrig.xp, s.m_boundingOrig.yp, width, height⟩ }
    else s
  else s

/-- Member `mouseReleaseEvent(event)`.  `ok` is the device's answer to the
reallocation `grow` may request. -/
def mouseReleaseEvent (ok : Bool) (_event : QGraphicsSceneMouseEvent) (s : MyGraphicsPlaneItem) :
    MyGraphicsPlaneItem :=
  if s.m_resize then
    let s := grow ok s.m_bounding s
    let s :=
      if s.m_boundingOrig.w > s.m_bounding.w ∨ s.m_boundingOrig.h > s.m_bounding.h then
        if s.m_dirty.isNull then { s with m_dirty := s.m_boundingOrig }
        else { s with m_dirty := s.m_dirty.united s.m_boundingOrig }
      else s
    let s := draw s
    { s with m_resize := false }
  else s

/-- Member `itemChange(change, value)`; `value` is `value.toBool()`. -/
def itemChange (change : GraphicsItemChange) (value : Bool) (s : MyGraphicsPlaneItem) :
    MyGraphicsPlaneItem :=
  if change = GraphicsItemChange.ItemSelectedHasChanged then
    draw { s with m_focus := value }
  else s

end MyGraphicsPlaneItem

/-! ## Sequences of events -/

/-- What the host can do to a plane item after it is constructed.  Events that
may reallocate carry the device's answer. -/
inductive Event where
  | setSize (ok : Bool) (bounding : QRectF)
  | mousePress (event : QGraphicsSceneMouseEvent)
  | mouseMove (event : QGraphicsSceneMouseEvent)
  | mouseRelease (ok : Bool) (event : QGraphicsSceneMouseEvent)
  | pinch (gesture : QPinchGesture)
  | itemChange (change : GraphicsItemChange) (value : Bool)

/-- The item after one event. -/
def step (s : MyGraphicsPlaneItem) : Event → MyGraphicsPlaneItem
  | .setSize ok bounding => s.setSize ok bounding
  | .mousePress event => s.mousePressEvent event
  | .mouseMove event => s.mouseMoveEvent event
  | .mouseRelease ok event => s.mouseReleaseEvent ok event
  | .pinch gesture => s.pinchTriggered gesture
  | .itemChange change value => s.itemChange change value

/-- The item after a sequence of events, handled one after the other. -/
def run (s : MyGraphicsPlaneItem) (events : List Event) : MyGraphicsPlaneItem :=
  events.foldl step s

/-- The plane's buffer has exactly the width and height of `bounding`. -/
def bufferSizeIs (s : MyGraphicsPlaneItem) (bounding : QRectF) : Prop :=
  (s.m_plane.width : ℚ) = bounding.w ∧ (s.m_plane.height : ℚ) = bounding.h

/-- Both sizes of the plane fit a `uint32_t`. -/
def plane_data.inRange (plane : plane_data) : Prop :=
  plane.width < 2 ^ 32 ∧ plane.height < 2 ^ 32

/-- A plane of 800 by 480 pixels, as a display driver may hand it over. -/
def panel : plane_data := ⟨800, 480⟩

/-- The item `main.cpp` creates: `MyGraphicsPlaneItem(plane, QRectF(0,0,50,50))`,
here on `panel` and with a device that satisfies the request. -/
def box2 : MyGraphicsPlaneItem := MyGraphicsPlaneItem.init panel ⟨0, 0, 50, 50⟩ 1 true

/-- The item after a press and a sequence of moves. -/
def afterMoves (press : QGraphicsSceneMouseEvent) (moves : List QGraphicsSceneMouseEvent)
    (s : MyGraphicsPlaneItem) : MyGraphicsPlaneItem :=
  moves.foldl (fun st e => st.mouseMoveEvent e) (s.mousePressEvent press)

/-- The item after a whole resize gesture: a press, moves, and a release. -/
def resizeGesture (ok : Bool) (press : QGraphicsSceneMouseEvent)
    (moves : List QGraphicsSceneMouseEvent) (release : QGraphicsSceneMouseEvent)
    (s : MyGraphicsPlaneItem) : MyGraphicsPlaneItem :=
  (afterMoves press moves s).mouseReleaseEvent ok release

/-- A left-button event at the item position `(x, y)` of an item placed at the
scene origin, where scene and item coordinates agree. -/
def leftAt (x y : ℚ) : QGraphicsSceneMouseEvent := ⟨true, ⟨x, y⟩, ⟨x, y⟩⟩

/-- A pinch gesture event in the given state carrying the given total scale
factor. -/
def pinchEvent (state : GestureState) (factor : ℚ) : QPinchGesture := ⟨state, factor⟩

/-- The plane item after a run of gesture updates with the given total scale
factors, in order. -/
def MyGraphicsPlaneItem.pinchUpdates (factors : List ℚ) (s : MyGraphicsPlaneItem) :
    MyGraphicsPlaneItem :=
  factors.foldl (fun st f => st.pinchTriggered (pinchEvent GestureState.GestureUpdated f)) s

/-- The software item after a run of gesture updates with the given total scale
factors, in order. -/
def MyGraphicsItem.pinchUpdates (factors : List ℚ) (s : MyGraphicsItem) : MyGraphicsItem :=
  factors.foldl (fun st f => st.pinchTriggered (pinchEvent GestureState.GestureUpdated f)) s

/-- The software item of `main.cpp`: `MyGraphicsItem(QRectF(0,0,50,50))`. -/
def box1 : MyGraphicsItem := MyGraphicsItem.init ⟨0, 0, 50, 50⟩ 1

/-- The item of `main.cpp` after the commit `setSize(QRectF(0,0,100,100))`. -/
def committed100 : MyGraphicsPlaneItem := box2.setSize true ⟨0, 0, 100, 100⟩

/-- The item `committed100` in a resize: pressed on the grip at `(95,95)` and
dragged to `(35,35)`, so that the live bounding is `(0,0,40,40)`. -/
def shrinking : MyGraphicsPlaneItem :=
  (committed100.mousePressEvent (leftAt 95 95)).mouseMoveEvent (leftAt 35 35)

/-- The grip hot-zone in the spec's words: the square of side `GRIP_SIZE`
anchored at the bottom-right corner `(x + w, y + h)` of the bounding. -/
def gripHotZone (bounding : QRectF) : QRectF :=
  ⟨bounding.xp + bounding.w - GRIP_SIZE, bounding.yp + bounding.h - GRIP_SIZE, GRIP_SIZE,
    GRIP_SIZE⟩

/-- A plane item and a software item created with the bounding `(10,10,50,50)`,
whose top-left corner is not the origin. -/
def offsetPlaneItem : MyGraphicsPlaneItem := MyGraphicsPlaneItem.init panel ⟨10, 10, 50, 50⟩ 1 true

/-- The software item created with the bounding `(10,10,50,50)`. -/
def offsetItem : MyGraphicsItem := MyGraphicsItem.init ⟨10, 10, 50, 50⟩ 1

/-- The run of `draw` recorded by this call found the plane buffer at exactly
the size of the bounding it painted; calls other than `draw` pass. -/
def Call.atBoundingSize : Call → Prop
  | .draw _ bounding bufWidth bufHeight _ =>
      (bufWidth : ℚ) = bounding.w ∧ (bufHeight : ℚ) = bounding.h
  | _ => True

/-- A resize that a pinch cancels: the item is pressed on the grip (which
selects it), dragged by `(+20,+10)`, a second finger starts and ends a pinch,
the first finger is lifted, and later the item loses the selection. -/
def cancelledResize : List Event :=
  [ Event.mousePress (leftAt 45 45),
    Event.itemChange GraphicsItemChange.ItemSelectedHasChanged true,
    Event.mouseMove (leftAt 65 55),
    Event.pinch (pinchEvent GestureState.GestureStarted 1),
    Event.pinch (pinchEvent GestureState.GestureFinished 1),
    Event.mouseRelease true (leftAt 65 55),
    Event.itemChange GraphicsItemChange.ItemSelectedHasChanged false ]

/-- The software item after one event.  `MyGraphicsItem` has no plane, so the
device's answer carried by an event is not used, and it does not override
`itemChange`, so a change of the selection leaves its members as they are. -/
def MyGraphicsItem.step (t : MyGraphicsItem) : Event → MyGraphicsItem
  | .setSize _ bounding => t.setSize bounding
  | .mousePress event => t.mousePressEvent event
  | .mouseMove event => t.mouseMoveEvent event
  | .mouseRelease _ event => t.mouseReleaseEvent event
  | .pinch gesture => t.pinchTriggered gesture
  | .itemChange _ _ => t

/-- The software item after a sequence of events, handled one after the other. -/
def MyGraphicsItem.run (t : MyGraphicsItem) (events : List Event) : MyGraphicsItem :=
  events.foldl MyGraphicsItem.step t

/-- The manipulation state of a plane item, presented as the members of a
software item: live bounding, resize flag, drag offset, bounding and scale at
the start of the gesture, pinch flag, scale and movable flag. -/
def MyGraphicsPlaneItem.manipulation (s : MyGraphicsPlaneItem) : MyGraphicsItem :=
  { m_offset := s.m_offset
    m_bounding := s.m_bounding
    m_boundingOrig := s.m_boundingOrig
    m_resize := s.m_resize
    m_gestureResize := s.m_gestureResize
    m_startScale := s.m_startScale
    scale := s.scale
    movable := s.movable }

/-- Whether the event is a left-button press on the grip rectangle of the
bounding. -/
def gripPress (bounding : QRectF) : Event → Bool
  | .mousePress event => event.leftButton && (gripRect bounding).contains event.pos
  | _ => false

/-- Whether, in the run of the events from the software item `t`, no
left-button press lands on the grip while a pinch is active, that is while
`m_gestureResize` is set. -/
def pressesOutsidePinch : MyGraphicsItem → List Event → Bool
  | _, [] => true
  | t, e :: es =>
      !(t.m_gestureResize && gripPress t.m_bounding e) && pressesOutsidePinch (t.step e) es

/-- A second pointer presses the grip while a pinch is active. -/
def pressDuringPinch : List Event :=
  [ Event.pinch (pinchEvent GestureState.GestureStarted 1),
    Event.mousePress (leftAt 45 45) ]

/-- A drag of the grip that a pinch interrupts: press, move, pinch start,
update and finish, release. -/
def dragThenPinch : List Event :=
  [ Event.mousePress (leftAt 45 45),
    Event.mouseMove (leftAt 65 55),
    Event.pinch (pinchEvent GestureState.GestureStarted 1),
    Event.pinch (pinchEvent GestureState.GestureUpdated (3 / 2)),
    Event.pinch (pinchEvent GestureState.GestureFinished (3 / 2)),
    Event.mouseRelease true (leftAt 65 55) ]

/-- Whether the software item is not resizing and pinch-scaling at once: the
flags `m_resize` and `m_gestureResize` are not both set. -/
def MyGraphicsItem.exclusive (t : MyGraphicsItem) : Bool := !(t.m_resize && t.m_gestureResize)

/-- Whether the plane item is not resizing and pinch-scaling at once. -/
def MyGraphicsPlaneItem.exclusive (s : MyGraphicsPlaneItem) : Bool :=
  !(s.m_resize && s.m_gestureResize)

/-- The software item with other contents in `m_startScale` and in the scale. -/
def MyGraphicsItem.withScales (t : MyGraphicsItem) (startScale scale : ℚ) : MyGraphicsItem :=
  { t with m_startScale := startScale, scale := scale }

/-- Whether the event is a pinch in the state `Qt::GestureStarted`. -/
def Event.isGestureStart : Event → Bool
  | .pinch gesture => decide (gesture.state = GestureState.GestureStarted)
  | _ => false

/-- Whether the event is a pinch in the state `Qt::GestureUpdated`. -/
def Event.isGestureUpdate : Event → Bool
  | .pinch gesture => decide (gesture.state = GestureState.GestureUpdated)
  | _ => false

/-- Whether every gesture update in the events comes after a gesture start;
`started` tells whether a start has been seen before the events. -/
def updatesFollowStart : Bool → List Event → Bool
  | _, [] => true
  | started, e :: es =>
      (!e.isGestureUpdate || started) && updatesFollowStart (started || e.isGestureStart) es

/-- Whether the events hold a gesture start. -/
def sawGestureStart (events : List Event) : Bool := events.any Event.isGestureStart

/-- A gesture update that no gesture start precedes. -/
def updateWithoutStart : List Event := [Event.pinch (pinchEvent GestureState.GestureUpdated 3)]

/-! ## Facts about the conversions and about `QRectF` -/

theorem toUInt32_natCast (n : Nat) (h : n < 2 ^ 32) : toUInt32 (n : ℚ) = n := by
  simp [toUInt32, truncate]
  omega

theorem toInt_natCast (n : Nat) (h : n < 2 ^ 31) : toInt n = n := by
  simp [toInt]
  omega

theorem toInt_eq_natCast {u n : Nat} (hu : u < 2 ^ 32) (hn : n < 2 ^ 31)
    (h : (toInt u : ℚ) = n) : u = n := by
  have h2 : toInt u = (n : Int) := by exact_mod_cast h
  simp only [toInt] at h2
  split at h2 <;> omega

theorem toUInt32_half_101 : toUInt32 (101 / 2) = 50 := by
  have h : ⌊(101 / 2 : ℚ)⌋ = 50 := by rw [Int.floor_eq_iff]; norm_num
  norm_num [toUInt32, truncate, h]
  rfl

theorem isEmpty_of_isNull {r : QRectF} (h : r.isNull = true) : r.isEmpty = true := by
  simp [QRectF.isNull] at h
  simp [QRectF.isEmpty, h.1]

namespace MyGraphicsPlaneItem

/-! ## Facts about `draw` and `grow` -/

theorem draw_m_dirty (s : MyGraphicsPlaneItem) : (draw s).m_dirty.isNull = true := by
  unfold draw
  split
  · simp [QRectF.isNull, QRectF.null]
  · rename_i h
    simpa using h

theorem draw_m_plane (s : MyGraphicsPlaneItem) : (draw s).m_plane = s.m_plane := by
  unfold draw
  split <;> rfl

theorem draw_calls (s : MyGraphicsPlaneItem) : (draw s).calls = s.calls ++
    [Call.draw s.m_dirty s.m_bounding s.m_plane.width s.m_plane.height s.m_fb] := by
  unfold draw
  split <;> rfl

theorem grow_m_bounding (ok : Bool) (b : QRectF) (s : MyGraphicsPlaneItem) :
    (grow ok b s).m_bounding = s.m_bounding := by
  unfold grow
  split
  · simp only [reinit_painter]; split <;> rfl
  · rfl

/-- After a satisfied `grow` to a whole-number size the plane has that size. -/
theorem grow_m_plane (b : QRectF) (s : MyGraphicsPlaneItem) (n m : Nat)
    (hw : b.w = n) (hh : b.h = m) (hn : n < 2 ^ 31) (hm : m < 2 ^ 31)
    (hr : s.m_plane.inRange) : (grow true b s).m_plane = ⟨n, m⟩ := by
  unfold grow
  split
  · have e1 : toUInt32 b.w = n := by rw [hw]; exact toUInt32_natCast n (by omega)
    have e2 : toUInt32 b.h = m := by rw [hh]; exact toUInt32_natCast m (by omega)
    simp only [reinit_painter, plane_fb_reallocate, e1, e2]
    split <;> rfl
  · rename_i hc
    simp only [not_or, not_not] at hc
    have e1 : s.m_plane.width = n := toInt_eq_natCast hr.1 hn (by rw [hc.1, hw])
    have e2 : s.m_plane.height = m := toInt_eq_natCast hr.2 hm (by rw [hc.2, hh])
    cases hp : s.m_plane
    simp_all

theorem grow_calls (ok : Bool) (b : QRectF) (s : MyGraphicsPlaneItem) :
    (grow ok b s).calls =
      if ((toInt s.m_plane.width : ℚ) ≠ b.w) ∨ ((toInt s.m_plane.height : ℚ) ≠ b.h) then
        s.calls ++ [Call.fb_reallocate (toUInt32 b.w) (toUInt32 b.h) ok, Call.fb_map,
          Call.moveEvent]
      else s.calls := by
  unfold grow
  split
  · simp only [reinit_painter]; split <;> simp
  · rfl

/-- The guard of `grow`: nothing happens when the sizes compare equal. -/
theorem grow_of_same_size (ok : Bool) (b : QRectF) (s : MyGraphicsPlaneItem)
    (hw : (toInt s.m_plane.width : ℚ) = b.w) (hh : (toInt s.m_plane.height : ℚ) = b.h) :
    grow ok b s = s := by
  unfold grow
  rw [if_neg]
  simp [hw, hh]

theorem setSize_m_plane (ok : Bool) (b : QRectF) (s : MyGraphicsPlaneItem) :
    (setSize ok b s).m_plane = (grow ok b s).m_plane := by
  unfold setSize
  rw [draw_m_plane]
  unfold grow
  split <;> split <;> simp [reinit_painter] <;> split <;> rfl

theorem box2_eq : box2 =
    { m_plane := ⟨50, 50⟩
      m_bounding := ⟨0, 0, 50, 50⟩
      m_offset := ⟨0, 0⟩
      m_boundingOrig := QRectF.null
      m_resize := false
      m_focus := false
      m_dirty := QRectF.null
      m_fb := some ⟨50, 50⟩
      m_gestureResize := false
      m_startScale := 1
      scale := 1
      movable := true
      calls := [Call.fb_reallocate 50 50 true, Call.fb_map, Call.moveEvent,
        Call.draw ⟨0, 0, 800, 480⟩ ⟨0, 0, 50, 50⟩ 50 50 (some ⟨50, 50⟩)] } := by
  have e : toUInt32 50 = 50 := toUInt32_natCast 50 (by norm_num)
  norm_num [box2, init, panel, grow, draw, reinit_painter, plane_fb_reallocate, toInt,
    QRectF.isNull, QRectF.united, QRectF.leftEdge, QRectF.rightEdge, QRectF.topEdge,
    QRectF.bottomEdge, boundingRect, QRectF.null, e]

/-! ## C1: the buffer and the dirty rectangle after a commit -/

/-- C1, as stated, fails: after `setSize(QRectF(0,0,50.5,50.5))` on the item
of `main.cpp` the plane buffer is 50 by 50, not 50.5 by 50.5, because the
sizes reach `plane_fb_reallocate` as `uint32_t`. -/
theorem C1_fractional_bounding_counterexample :
    ¬ (bufferSizeIs (box2.setSize true ⟨0, 0, 101 / 2, 101 / 2⟩) ⟨0, 0, 101 / 2, 101 / 2⟩ ∧
        (box2.setSize true ⟨0, 0, 101 / 2, 101 / 2⟩).m_dirty.isEmpty = true) := by
  have h : (box2.setSize true ⟨0, 0, 101 / 2, 101 / 2⟩).m_plane = ⟨50, 50⟩ := by
    rw [setSize_m_plane, box2_eq]
    norm_num [grow, reinit_painter, plane_fb_reallocate, toInt, toUInt32_half_101, QRectF.isNull,
      QRectF.null]
  intro hc
  have hw := hc.1.1
  rw [h] at hw
  norm_num at hw

/-- C1, amended: for every bounding whose width and height are whole numbers
below `2^31`, and a device that satisfies the reallocation, after `setSize`
from any item with an in-range plane, and after construction on any in-range
plane, the plane buffer has the bounding's width and height and `m_dirty` is
empty (it is null). -/
theorem C1_commit_sets_buffer_and_clears_dirty (B : QRectF) (n m : Nat)
    (hw : B.w = n) (hh : B.h = m) (hn : n < 2 ^ 31) (hm : m < 2 ^ 31)
    (s : MyGraphicsPlaneItem) (hs : s.m_plane.inRange)
    (plane : plane_data) (hp : plane.inRange) (startScale : ℚ) :
    (bufferSizeIs (s.setSize true B) B ∧ (s.setSize true B).m_dirty.isEmpty = true ∧
      (s.setSize true B).m_dirty.isNull = true) ∧
    (bufferSizeIs (init plane B startScale true) B ∧
      (init plane B startScale true).m_dirty.isEmpty = true ∧
      (init plane B startScale true).m_dirty.isNull = true) := by
  refine ⟨⟨?_, ?_, ?_⟩, ⟨?_, ?_, ?_⟩⟩
  · have h := setSize_m_plane true B s
    rw [grow_m_plane B s n m hw hh hn hm hs] at h
    simp [bufferSizeIs, h, hw, hh]
  · exact isEmpty_of_isNull (draw_m_dirty _)
  · exact draw_m_dirty _
  · have h : (init plane B startScale true).m_plane = ⟨n, m⟩ := by
      unfold init
      rw [draw_m_plane]
      exact grow_m_plane B _ n m hw hh hn hm hp
    simp [bufferSizeIs, h, hw, hh]
  · exact isEmpty_of_isNull (draw_m_dirty _)
  · exact draw_m_dirty _

theorem C1_commit_sets_buffer_and_clears_dirty_witness :
    (bufferSizeIs (box2.setSize true ⟨0, 0, 70, 60⟩) ⟨0, 0, 70, 60⟩ ∧
      (box2.setSize true ⟨0, 0, 70, 60⟩).m_dirty.isEmpty = true ∧
      (box2.setSize true ⟨0, 0, 70, 60⟩).m_dirty.isNull = true) ∧
    (bufferSizeIs (init panel ⟨0, 0, 70, 60⟩ 1 true) ⟨0, 0, 70, 60⟩ ∧
      (init panel ⟨0, 0, 70, 60⟩ 1 true).m_dirty.isEmpty = true ∧
      (init panel ⟨0, 0, 70, 60⟩ 1 true).m_dirty.isNull = true) :=
  C1_commit_sets_buffer_and_clears_dirty ⟨0, 0, 70, 60⟩ 70 60 (by simp) (by simp)
    (by norm_num) (by norm_num) box2 (by rw [box2_eq]; simp [plane_data.inRange])
    panel (by simp [plane_data.inRange, panel]) 1

/-! ## C2: `grow` twice in a row -/

/-- C2, as stated, fails: on the item of `main.cpp`, `grow` with the bounding
`(0,0,50.5,50.5)` called twice in a row calls `plane_fb_reallocate` twice. The
buffer gets 50 by 50 each time, which never compares equal to 50.5. -/
theorem C2_second_grow_reallocates_counterexample :
    ¬ (reallocations (grow true ⟨0, 0, 101 / 2, 101 / 2⟩
          (grow true ⟨0, 0, 101 / 2, 101 / 2⟩ box2)).calls ≤ reallocations box2.calls + 1) := by
  rw [grow_calls, grow_calls, box2_eq]
  norm_num [grow, reinit_painter, plane_fb_reallocate, toInt, toUInt32_half_101, QRectF.isNull,
    QRectF.null, reallocations, Call.isReallocate, List.countP_cons]

/-- C2, amended: for every bounding whose width and height are whole numbers
below `2^31` and every item, once a first `grow` has had its reallocation (if
any) satisfied, a second `grow` with the same bounding changes nothing at all
whatever the device would answer, so both together call `plane_fb_reallocate`
at most once. -/
theorem C2_second_grow_is_noop (B : QRectF) (n m : Nat)
    (hw : B.w = n) (hh : B.h = m) (hn : n < 2 ^ 31) (hm : m < 2 ^ 31)
    (s : MyGraphicsPlaneItem) (ok2 : Bool) :
    grow ok2 B (grow true B s) = grow true B s ∧
    reallocations (grow ok2 B (grow true B s)).calls ≤ reallocations s.calls + 1 := by
  have key : grow ok2 B (grow true B s) = grow true B s := by
    by_cases hc : ((toInt s.m_plane.width : ℚ) ≠ B.w) ∨ ((toInt s.m_plane.height : ℚ) ≠ B.h)
    · have hp : (grow true B s).m_plane = ⟨n, m⟩ := by
        have e1 : toUInt32 B.w = n := by rw [hw]; exact toUInt32_natCast n (by omega)
        have e2 : toUInt32 B.h = m := by rw [hh]; exact toUInt32_natCast m (by omega)
        unfold grow
        rw [if_pos hc]
        simp only [reinit_painter, plane_fb_reallocate, e1, e2]
        split <;> rfl
      apply grow_of_same_size
      · rw [hp, hw]; simp [toInt_natCast n hn]
      · rw [hp, hh]; simp [toInt_natCast m hm]
    · simp only [not_or, not_not] at hc
      rw [grow_of_same_size true B s hc.1 hc.2]
      exact grow_of_same_size ok2 B s hc.1 hc.2
  refine ⟨key, ?_⟩
  rw [key, grow_calls]
  split
  · simp [reallocations, List.countP_append, List.countP_cons, Call.isReallocate]
  · omega

/-- C2, amended, at the sizes of `main.cpp`: growing the 50 by 50 item to 70 by
60 twice. -/
theorem C2_second_grow_is_noop_witness :
    grow false ⟨0, 0, 70, 60⟩ (grow true ⟨0, 0, 70, 60⟩ box2) = grow true ⟨0, 0, 70, 60⟩ box2 ∧
    reallocations (grow false ⟨0, 0, 70, 60⟩ (grow true ⟨0, 0, 70, 60⟩ box2)).calls ≤
      reallocations box2.calls + 1 :=
  C2_second_grow_is_noop ⟨0, 0, 70, 60⟩ 70 60 (by simp) (by simp) (by norm_num) (by norm_num)
    box2 false

/-! ## C3: one resize gesture -/

theorem mouseMoveEvent_eq (e : QGraphicsSceneMouseEvent) (s : MyGraphicsPlaneItem) :
    ∃ b, mouseMoveEvent e s = { s with m_bounding := b } := by
  unfold mouseMoveEvent
  dsimp only
  split
  · split
    · exact ⟨_, rfl⟩
    · exact ⟨s.m_bounding, rfl⟩
  · exact ⟨s.m_bounding, rfl⟩

theorem foldl_mouseMoveEvent_eq (moves : List QGraphicsSceneMouseEvent) (s : MyGraphicsPlaneItem) :
    ∃ b, moves.foldl (fun st e => st.mouseMoveEvent e) s = { s with m_bounding := b } := by
  induction moves generalizing s with
  | nil => exact ⟨s.m_bounding, rfl⟩
  | cons e es ih =>
    obtain ⟨b, hb⟩ := mouseMoveEvent_eq e s
    obtain ⟨b2, hb2⟩ := ih (mouseMoveEvent e s)
    refine ⟨b2, ?_⟩
    rw [List.foldl_cons, hb2, hb]

theorem mousePressEvent_in_grip (e : QGraphicsSceneMouseEvent) (s : MyGraphicsPlaneItem)
    (hr : s.m_resize = false) (hl : e.leftButton = true)
    (hg : (gripRect s.m_bounding).contains e.pos = true) :
    mousePressEvent e s =
      { s with m_resize := true, m_offset := e.scenePos, m_boundingOrig := s.m_bounding } := by
  simp [mousePressEvent, hr, hl, hg]

theorem afterMoves_eq (press : QGraphicsSceneMouseEvent) (moves : List QGraphicsSceneMouseEvent)
    (s : MyGraphicsPlaneItem) (hr : s.m_resize = false) (hl : press.leftButton = true)
    (hg : (gripRect s.m_bounding).contains press.pos = true) :
    ∃ b, afterMoves press moves s =
      { s with m_resize := true, m_offset := press.scenePos, m_boundingOrig := s.m_bounding,
               m_bounding := b } := by
  obtain ⟨b, hb⟩ := foldl_mouseMoveEvent_eq moves (mousePressEvent press s)
  refine ⟨b, ?_⟩
  rw [afterMoves, hb, mousePressEvent_in_grip press s hr hl hg]

theorem mouseReleaseEvent_calls (ok : Bool) (e : QGraphicsSceneMouseEvent)
    (s : MyGraphicsPlaneItem) (hr : s.m_resize = true) :
    ∃ d w h fb, (mouseReleaseEvent ok e s).calls =
      (grow ok s.m_bounding s).calls ++ [Call.draw d s.m_bounding w h fb] := by
  unfold mouseReleaseEvent
  rw [if_pos hr]
  dsimp only
  split <;> try split
  all_goals
    rw [draw_calls]
    simp only [grow_m_bounding]
    exact ⟨_, _, _, _, rfl⟩

theorem mouseReleaseEvent_m_bounding (ok : Bool) (e : QGraphicsSceneMouseEvent)
    (s : MyGraphicsPlaneItem) : (mouseReleaseEvent ok e s).m_bounding = s.m_bounding := by
  unfold mouseReleaseEvent
  split
  · simp only [draw]
    split <;> split <;> try split
    all_goals simp only [grow_m_bounding]
  · rfl

theorem mouseReleaseEvent_m_resize (ok : Bool) (e : QGraphicsSceneMouseEvent)
    (s : MyGraphicsPlaneItem) : (mouseReleaseEvent ok e s).m_resize = false := by
  unfold mouseReleaseEvent
  split
  · rfl
  · rename_i h
    simpa using h

/-- C3, as stated, fails: the release does not always reallocate.  On the item
of `main.cpp`, a press on the grip at `(45,45)`, a move 55 to the left (computed
width `-5`, so the bounding stays) and a release add no `plane_fb_reallocate`
call at all, since the buffer already has the size of the final bounding. -/
theorem C3_release_without_reallocation_counterexample :
    ¬ (reallocations (resizeGesture true (leftAt 45 45) [leftAt (-10) 45] (leftAt (-10) 45)
          box2).calls = reallocations box2.calls + 1) := by
  have h : resizeGesture true (leftAt 45 45) [leftAt (-10) 45] (leftAt (-10) 45) box2 =
      { box2 with m_offset := ⟨45, 45⟩, m_boundingOrig := ⟨0, 0, 50, 50⟩,
                  calls := box2.calls ++
                    [Call.draw QRectF.null ⟨0, 0, 50, 50⟩ 50 50 (some ⟨50, 50⟩)] } := by
    rw [box2_eq]
    norm_num [resizeGesture, afterMoves, leftAt, mousePressEvent, mouseMoveEvent,
      mouseReleaseEvent, gripRect, GRIP_SIZE, QRectF.contains, QRectF.leftEdge,
      QRectF.rightEdge, QRectF.topEdge, QRectF.bottomEdge, grow, toInt, draw, boundingRect,
      QRectF.isNull, QRectF.null]
  rw [h, box2_eq]
  simp [reallocations, List.countP_cons, Call.isReallocate]

/-- C3, amended: in a resize gesture (a left-button press inside the grip
rectangle while no resize is in progress, any moves, one release) no move
reallocates or repaints; the release repaints exactly once with the final live
bounding, which stays the bounding, and it reallocates at most once: once,
with the final live bounding's sizes converted to `uint32_t`, when `grow`
finds the buffer size different from the final live bounding's, and not at
all otherwise. -/
theorem C3_gesture_commits_at_release (s : MyGraphicsPlaneItem)
    (press release : QGraphicsSceneMouseEvent) (moves : List QGraphicsSceneMouseEvent)
    (ok : Bool) (hr : s.m_resize = false) (hl : press.leftButton = true)
    (hg : (gripRect s.m_bounding).contains press.pos = true) :
    (∀ k, (afterMoves press (moves.take k) s).calls = s.calls ∧
          (afterMoves press (moves.take k) s).m_plane = s.m_plane) ∧
    (∃ d w h fb, (resizeGesture ok press moves release s).calls =
      (s.calls ++
        if (toInt s.m_plane.width : ℚ) ≠ (afterMoves press moves s).m_bounding.w ∨
            (toInt s.m_plane.height : ℚ) ≠ (afterMoves press moves s).m_bounding.h then
          [Call.fb_reallocate (toUInt32 (afterMoves press moves s).m_bounding.w)
            (toUInt32 (afterMoves press moves s).m_bounding.h) ok, Call.fb_map, Call.moveEvent]
        else []) ++
        [Call.draw d (afterMoves press moves s).m_bounding w h fb]) ∧
    repaints (resizeGesture ok press moves release s).calls = repaints s.calls + 1 ∧
    reallocations (resizeGesture ok press moves release s).calls =
      reallocations s.calls +
        (if (toInt s.m_plane.width : ℚ) ≠ (afterMoves press moves s).m_bounding.w ∨
            (toInt s.m_plane.height : ℚ) ≠ (afterMoves press moves s).m_bounding.h then 1
         else 0) ∧
    (resizeGesture ok press moves release s).m_bounding = (afterMoves press moves s).m_bounding ∧
    (resizeGesture ok press moves release s).m_resize = false := by
  obtain ⟨b, hb⟩ := afterMoves_eq press moves s hr hl hg
  have hmr : (afterMoves press moves s).m_resize = true := by rw [hb]
  have hmc : (afterMoves press moves s).calls = s.calls := by rw [hb]
  have hmp : (afterMoves press moves s).m_plane = s.m_plane := by rw [hb]
  obtain ⟨d, w, h, fb, hc⟩ := mouseReleaseEvent_calls ok release (afterMoves press moves s) hmr
  rw [grow_calls, hmc, hmp] at hc
  have hcalls : (resizeGesture ok press moves release s).calls =
      (s.calls ++
        if (toInt s.m_plane.width : ℚ) ≠ (afterMoves press moves s).m_bounding.w ∨
            (toInt s.m_plane.height : ℚ) ≠ (afterMoves press moves s).m_bounding.h then
          [Call.fb_reallocate (toUInt32 (afterMoves press moves s).m_bounding.w)
            (toUInt32 (afterMoves press moves s).m_bounding.h) ok, Call.fb_map, Call.moveEvent]
        else []) ++
        [Call.draw d (afterMoves press moves s).m_bounding w h fb] := by
    rw [resizeGesture, hc]
    split <;> simp
  refine ⟨?_, ⟨d, w, h, fb, hcalls⟩, ?_, ?_, ?_, ?_⟩
  · intro k
    obtain ⟨b2, hb2⟩ := afterMoves_eq press (moves.take k) s hr hl hg
    rw [hb2]
    exact ⟨rfl, rfl⟩
  · rw [hcalls]
    split <;>
      simp [repaints, List.countP_append, List.countP_cons, Call.isDraw]
  · rw [hcalls]
    split <;>
      simp [reallocations, List.countP_append, List.countP_cons, Call.isReallocate]
  · exact mouseReleaseEvent_m_bounding ok release _
  · exact mouseReleaseEvent_m_resize ok release _

/-- The gesture the spec gives for C3, on the item of `main.cpp`: press at
`(45,45)`, move by `(+20,+10)`, release on a device that satisfies the
request.  The hypotheses hold and the statement of C3, amended, follows. -/
theorem C3_gesture_commits_at_release_witness :
    box2.m_resize = false ∧ (leftAt 45 45).leftButton = true ∧
    (gripRect box2.m_bounding).contains (leftAt 45 45).pos = true ∧
    repaints (resizeGesture true (leftAt 45 45) [leftAt 65 55] (leftAt 65 55) box2).calls =
      repaints box2.calls + 1 ∧
    (resizeGesture true (leftAt 45 45) [leftAt 65 55] (leftAt 65 55) box2).m_resize = false :=
  have hr : box2.m_resize = false := by rw [box2_eq]
  have hl : (leftAt 45 45).leftButton = true := rfl
  have hg : (gripRect box2.m_bounding).contains (leftAt 45 45).pos = true := by
    rw [box2_eq]
    norm_num [gripRect, GRIP_SIZE, leftAt, QRectF.contains, QRectF.leftEdge, QRectF.rightEdge,
      QRectF.topEdge, QRectF.bottomEdge]
  have h := C3_gesture_commits_at_release box2 (leftAt 45 45) (leftAt 65 55) [leftAt 65 55] true
    hr hl hg
  ⟨hr, hl, hg, h.2.2.1, h.2.2.2.2.2⟩

/-- The spec's end-to-end scenario 2 on the item of `main.cpp`: the gesture
adds exactly `plane_fb_reallocate(70,60)`, the remap, the repositioning and one
repaint, and leaves the bounding `(0,0,70,60)` on a 70 by 60 buffer. -/
theorem scenario2_resize_to_70_60 :
    (resizeGesture true (leftAt 45 45) [leftAt 65 55] (leftAt 65 55) box2).calls =
      box2.calls ++ [Call.fb_reallocate 70 60 true, Call.fb_map, Call.moveEvent,
        Call.draw ⟨0, 0, 70, 60⟩ ⟨0, 0, 70, 60⟩ 70 60 (some ⟨70, 60⟩)] ∧
    (resizeGesture true (leftAt 45 45) [leftAt 65 55] (leftAt 65 55) box2).m_bounding =
      ⟨0, 0, 70, 60⟩ ∧
    (resizeGesture true (leftAt 45 45) [leftAt 65 55] (leftAt 65 55) box2).m_plane = ⟨70, 60⟩ ∧
    (afterMoves (leftAt 45 45) [leftAt 65 55] box2).calls = box2.calls := by
  have e1 : toUInt32 70 = 70 := toUInt32_natCast 70 (by norm_num)
  have e2 : toUInt32 60 = 60 := toUInt32_natCast 60 (by norm_num)
  rw [box2_eq]
  norm_num [resizeGesture, afterMoves, leftAt, mousePressEvent, mouseMoveEvent,
    mouseReleaseEvent, gripRect, GRIP_SIZE, QRectF.contains, QRectF.leftEdge,
    QRectF.rightEdge, QRectF.topEdge, QRectF.bottomEdge, grow, toInt, draw, boundingRect,
    QRectF.isNull, QRectF.null, reinit_painter, plane_fb_reallocate, e1, e2]

end MyGraphicsPlaneItem

/-! ## C4: a move that would make the size non-positive -/

/-- C4: a move event whose computed width or height is not positive leaves
`m_bounding` as it was, in every state and so in every state with a resize in
progress, for the plane item `s` and for the software item `t`. -/
theorem C4_nonpositive_move_keeps_bounding (e : QGraphicsSceneMouseEvent)
    (s : MyGraphicsPlaneItem) (t : MyGraphicsItem)
    (hbs : s.m_boundingOrig.w + (e.scenePos.xp - s.m_offset.xp) ≤ 0 ∨
      s.m_boundingOrig.h + (e.scenePos.yp - s.m_offset.yp) ≤ 0)
    (hbt : t.m_boundingOrig.w + (e.scenePos.xp - t.m_offset.xp) ≤ 0 ∨
      t.m_boundingOrig.h + (e.scenePos.yp - t.m_offset.yp) ≤ 0) :
    (s.mouseMoveEvent e).m_bounding = s.m_bounding ∧
    (t.mouseMoveEvent e).m_bounding = t.m_bounding := by
  have h1 : s.mouseMoveEvent e = s := by
    unfold MyGraphicsPlaneItem.mouseMoveEvent
    dsimp only
    split
    · rw [if_neg]
      intro hc
      rcases hbs with h | h
      · exact absurd hc.1 (not_lt.mpr h)
      · exact absurd hc.2 (not_lt.mpr h)
    · rfl
  have h2 : t.mouseMoveEvent e = t := by
    unfold MyGraphicsItem.mouseMoveEvent
    dsimp only
    split
    · rw [if_neg]
      intro hc
      rcases hbt with h | h
      · exact absurd hc.1 (not_lt.mpr h)
      · exact absurd hc.2 (not_lt.mpr h)
    · rfl
  exact ⟨by rw [h1], by rw [h2]⟩

/-- C4 on the two items of `main.cpp` with a resize in progress, after a press
on the grip at `(45,45)`: a move 55 to the left computes the width `-5`. -/
theorem C4_nonpositive_move_keeps_bounding_witness :
    ((box2.mousePressEvent (leftAt 45 45)).m_resize = true ∧
      (box1.mousePressEvent (leftAt 45 45)).m_resize = true) ∧
    ((box2.mousePressEvent (leftAt 45 45)).mouseMoveEvent (leftAt (-10) 45)).m_bounding =
        (box2.mousePressEvent (leftAt 45 45)).m_bounding ∧
    ((box1.mousePressEvent (leftAt 45 45)).mouseMoveEvent (leftAt (-10) 45)).m_bounding =
        (box1.mousePressEvent (leftAt 45 45)).m_bounding :=
  ⟨⟨by rw [MyGraphicsPlaneItem.box2_eq]
       norm_num [MyGraphicsPlaneItem.mousePressEvent, leftAt, gripRect, GRIP_SIZE,
         QRectF.contains, QRectF.leftEdge, QRectF.rightEdge, QRectF.topEdge, QRectF.bottomEdge],
    by norm_num [box1, MyGraphicsItem.init, MyGraphicsItem.mousePressEvent, leftAt, gripRect,
         GRIP_SIZE, QRectF.contains, QRectF.leftEdge, QRectF.rightEdge, QRectF.topEdge,
         QRectF.bottomEdge]⟩,
   C4_nonpositive_move_keeps_bounding (leftAt (-10) 45)
    (box2.mousePressEvent (leftAt 45 45)) (box1.mousePressEvent (leftAt 45 45))
    (by rw [MyGraphicsPlaneItem.box2_eq]
        norm_num [MyGraphicsPlaneItem.mousePressEvent, leftAt, gripRect, GRIP_SIZE,
          QRectF.contains, QRectF.leftEdge, QRectF.rightEdge, QRectF.topEdge, QRectF.bottomEdge])
    (by norm_num [box1, MyGraphicsItem.init, MyGraphicsItem.mousePressEvent, leftAt, gripRect,
          GRIP_SIZE, QRectF.contains, QRectF.leftEdge, QRectF.rightEdge, QRectF.topEdge,
          QRectF.bottomEdge])⟩

/-! ## C5: pinch scaling -/

theorem MyGraphicsPlaneItem.pinchUpdates_plane_snoc (pre : List ℚ) (f : ℚ) (s : MyGraphicsPlaneItem) :
    (s.pinchUpdates (pre ++ [f])).scale = f * s.m_startScale ∧
    (s.pinchUpdates (pre ++ [f])).m_startScale = s.m_startScale := by
  have hk : ∀ (l : List ℚ) (u : MyGraphicsPlaneItem),
      (u.pinchUpdates l).m_startScale = u.m_startScale := by
    intro l
    induction l with
    | nil => intro u; rfl
    | cons g gs ih =>
      intro u
      rw [MyGraphicsPlaneItem.pinchUpdates, List.foldl_cons]
      exact (ih _).trans rfl
  constructor
  · rw [MyGraphicsPlaneItem.pinchUpdates, List.foldl_append]
    exact congrArg (fun x => f * x) (hk pre s)
  · exact hk _ s

theorem MyGraphicsItem.pinchUpdates_item_snoc (pre : List ℚ) (f : ℚ) (s : MyGraphicsItem) :
    (s.pinchUpdates (pre ++ [f])).scale = f * s.m_startScale ∧
    (s.pinchUpdates (pre ++ [f])).m_startScale = s.m_startScale := by
  have hk : ∀ (l : List ℚ) (u : MyGraphicsItem),
      (u.pinchUpdates l).m_startScale = u.m_startScale := by
    intro l
    induction l with
    | nil => intro u; rfl
    | cons g gs ih =>
      intro u
      rw [MyGraphicsItem.pinchUpdates, List.foldl_cons]
      exact (ih _).trans rfl
  constructor
  · rw [MyGraphicsItem.pinchUpdates, List.foldl_append]
    exact congrArg (fun x => f * x) (hk pre s)
  · exact hk _ s

/-- C5: a pinch that starts when the item's scale is `s0` and has delivered
updates of which the latest carries the total factor `f` leaves the scale at
`s0 * f`, whatever updates came before; when the gesture then finishes or is
cancelled the scale is still `s0 * f`, and the item is movable again.  This
holds for the plane item `s` and for the software item `t`; `g0` and `g1` are
the factors carried by the start and the end event, which the code ignores. -/
theorem C5_pinch_scale_is_relative (s : MyGraphicsPlaneItem) (t : MyGraphicsItem)
    (pre : List ℚ) (f g0 g1 : ℚ) :
    (((s.pinchTriggered (pinchEvent .GestureStarted g0)).pinchUpdates (pre ++ [f])).scale =
        s.scale * f ∧
      ((((s.pinchTriggered (pinchEvent .GestureStarted g0)).pinchUpdates (pre ++ [f])).pinchTriggered
        (pinchEvent .GestureFinished g1)).scale = s.scale * f) ∧
      ((((s.pinchTriggered (pinchEvent .GestureStarted g0)).pinchUpdates (pre ++ [f])).pinchTriggered
        (pinchEvent .GestureCanceled g1)).scale = s.scale * f)) ∧
    (((t.pinchTriggered (pinchEvent .GestureStarted g0)).pinchUpdates (pre ++ [f])).scale =
        t.scale * f ∧
      ((((t.pinchTriggered (pinchEvent .GestureStarted g0)).pinchUpdates (pre ++ [f])).pinchTriggered
        (pinchEvent .GestureFinished g1)).scale = t.scale * f) ∧
      ((((t.pinchTriggered (pinchEvent .GestureStarted g0)).pinchUpdates (pre ++ [f])).pinchTriggered
        (pinchEvent .GestureCanceled g1)).scale = t.scale * f)) := by
  have hs := (MyGraphicsPlaneItem.pinchUpdates_plane_snoc pre f
    (s.pinchTriggered (pinchEvent .GestureStarted g0))).1
  have ht := (MyGraphicsItem.pinchUpdates_item_snoc pre f
    (t.pinchTriggered (pinchEvent .GestureStarted g0))).1
  have hs0 : (s.pinchTriggered (pinchEvent .GestureStarted g0)).m_startScale = s.scale := rfl
  have ht0 : (t.pinchTriggered (pinchEvent .GestureStarted g0)).m_startScale = t.scale := rfl
  rw [hs0, mul_comm] at hs
  rw [ht0, mul_comm] at ht
  exact ⟨⟨hs, hs, hs⟩, ⟨ht, ht, ht⟩⟩

namespace MyGraphicsPlaneItem

/-! ## C6: a reallocation the device refuses -/

theorem grow_refused_m_plane (b : QRectF) (s : MyGraphicsPlaneItem) :
    (grow false b s).m_plane = s.m_plane := by
  unfold grow
  split
  · simp only [reinit_painter, plane_fb_reallocate]
    split <;> rfl
  · rfl

theorem grow_m_dirty_any_answer (ok : Bool) (b : QRectF) (s : MyGraphicsPlaneItem) :
    (grow ok b s).m_dirty = (grow true b s).m_dirty := by
  unfold grow
  split
  · simp only [reinit_painter]
    by_cases h : s.m_dirty.isNull = true <;> simp [h]
  · rfl

theorem grow_repaints (ok : Bool) (b : QRectF) (s : MyGraphicsPlaneItem) :
    repaints (grow ok b s).calls = repaints s.calls := by
  rw [grow_calls]
  split
  · simp [repaints, List.countP_append, List.countP_cons, Call.isDraw]
  · rfl

theorem draw_repaints (s : MyGraphicsPlaneItem) :
    repaints (draw s).calls = repaints s.calls + 1 := by
  rw [draw_calls]
  simp [repaints, List.countP_append, List.countP_cons, Call.isDraw]

theorem draw_last_call (s : MyGraphicsPlaneItem) :
    (draw s).calls.getLast? =
      some (Call.draw s.m_dirty s.m_bounding s.m_plane.width s.m_plane.height s.m_fb) := by
  rw [draw_calls]
  simp

/-- C6, as stated, fails: when the device refuses the reallocation requested
by `setSize(QRectF(0,0,70,60))` on the item of `main.cpp`, `draw` is run all
the same and `m_dirty` is reset to the null rectangle. -/
theorem C6_refused_reallocation_counterexample :
    ¬ (repaints (box2.setSize false ⟨0, 0, 70, 60⟩).calls = repaints box2.calls ∧
        (box2.setSize false ⟨0, 0, 70, 60⟩).m_plane = box2.m_plane ∧
        (box2.setSize false ⟨0, 0, 70, 60⟩).m_dirty.isNull = false) := by
  intro h
  have hd : (box2.setSize false ⟨0, 0, 70, 60⟩).m_dirty.isNull = true := draw_m_dirty _
  rw [hd] at h
  exact Bool.noConfusion h.2.2

theorem setSize_repaints (ok : Bool) (b : QRectF) (s : MyGraphicsPlaneItem) :
    repaints (setSize ok b s).calls = repaints s.calls + 1 := by
  unfold setSize
  dsimp only
  rw [draw_repaints, grow_repaints]
  split <;> rfl

theorem setSize_refused_last_call (b : QRectF) (s : MyGraphicsPlaneItem) :
    ∃ d fb, (setSize false b s).calls.getLast? =
      some (Call.draw d b s.m_plane.width s.m_plane.height fb) := by
  unfold setSize
  dsimp only
  rw [draw_last_call, grow_m_bounding, grow_refused_m_plane]
  split
  all_goals exact ⟨_, _, rfl⟩

theorem init_repaints (ok : Bool) (plane : plane_data) (b : QRectF) (q : ℚ) :
    repaints (init plane b q ok).calls = 1 := by
  unfold init
  dsimp only
  rw [draw_repaints, grow_repaints]
  rfl

theorem init_refused_last_call (plane : plane_data) (b : QRectF) (q : ℚ) :
    ∃ d fb, (init plane b q false).calls.getLast? =
      some (Call.draw d b plane.width plane.height fb) := by
  unfold init
  dsimp only
  rw [draw_last_call, grow_m_bounding, grow_refused_m_plane]
  exact ⟨_, _, rfl⟩

theorem mouseReleaseEvent_refused_last_call (e : QGraphicsSceneMouseEvent)
    (s : MyGraphicsPlaneItem) (hr : s.m_resize = true) :
    ∃ d fb, (mouseReleaseEvent false e s).calls.getLast? =
      some (Call.draw d s.m_bounding s.m_plane.width s.m_plane.height fb) := by
  obtain ⟨d, w, h, fb, hc⟩ := mouseReleaseEvent_calls false e s hr
  unfold mouseReleaseEvent at hc ⊢
  rw [if_pos hr] at hc ⊢
  dsimp only at hc ⊢
  split at hc <;> split <;> try split at hc
  all_goals try split
  all_goals first
    | contradiction
    | (rw [draw_last_call]
       simp only [grow_m_bounding, grow_refused_m_plane]
       exact ⟨_, _, rfl⟩)

theorem mouseReleaseEvent_refused_m_plane (e : QGraphicsSceneMouseEvent)
    (s : MyGraphicsPlaneItem) : (mouseReleaseEvent false e s).m_plane = s.m_plane := by
  unfold mouseReleaseEvent
  split
  · simp only [draw]
    split <;> split <;> try split
    all_goals exact grow_refused_m_plane _ _
  · rfl

theorem mouseReleaseEvent_repaints (ok : Bool) (e : QGraphicsSceneMouseEvent)
    (s : MyGraphicsPlaneItem) (hr : s.m_resize = true) :
    repaints (mouseReleaseEvent ok e s).calls = repaints s.calls + 1 := by
  obtain ⟨d, w, h, fb, hc⟩ := mouseReleaseEvent_calls ok e s hr
  rw [hc]
  have := grow_repaints ok s.m_bounding s
  simp only [repaints] at this ⊢
  simp [List.countP_append, List.countP_cons, Call.isDraw, this]

theorem mouseReleaseEvent_m_dirty (ok : Bool) (e : QGraphicsSceneMouseEvent)
    (s : MyGraphicsPlaneItem) (hr : s.m_resize = true) :
    (mouseReleaseEvent ok e s).m_dirty.isNull = true := by
  unfold mouseReleaseEvent
  rw [if_pos hr]
  exact draw_m_dirty _

/-- C6, amended: when the device refuses the reallocation during a commit
(`setSize`, construction, or the release of a resize), the buffer size stays
at its prior value, `grow` treats `m_dirty` exactly as after a satisfied
request, and the commit goes on as after a satisfied request: `draw` is run
once, against the buffer of the prior size, and `m_dirty` is reset to the null
rectangle. -/
theorem C6_refused_reallocation_still_draws (B : QRectF) (s : MyGraphicsPlaneItem)
    (plane : plane_data) (startScale : ℚ) (e : QGraphicsSceneMouseEvent)
    (r : MyGraphicsPlaneItem) (hr : r.m_resize = true) :
    ((grow false B s).m_plane = s.m_plane ∧ (grow false B s).m_dirty = (grow true B s).m_dirty) ∧
    ((s.setSize false B).m_plane = s.m_plane ∧
      repaints (s.setSize false B).calls = repaints s.calls + 1 ∧
      (∃ d fb, (s.setSize false B).calls.getLast? =
        some (Call.draw d B s.m_plane.width s.m_plane.height fb)) ∧
      (s.setSize false B).m_dirty.isNull = true) ∧
    ((init plane B startScale false).m_plane = plane ∧
      repaints (init plane B startScale false).calls = 1 ∧
      (∃ d fb, (init plane B startScale false).calls.getLast? =
        some (Call.draw d B plane.width plane.height fb)) ∧
      (init plane B startScale false).m_dirty.isNull = true) ∧
    ((r.mouseReleaseEvent false e).m_plane = r.m_plane ∧
      repaints (r.mouseReleaseEvent false e).calls = repaints r.calls + 1 ∧
      (∃ d fb, (r.mouseReleaseEvent false e).calls.getLast? =
        some (Call.draw d r.m_bounding r.m_plane.width r.m_plane.height fb)) ∧
      (r.mouseReleaseEvent false e).m_dirty.isNull = true) := by
  refine ⟨⟨grow_refused_m_plane B s, grow_m_dirty_any_answer false B s⟩,
    ⟨?_, setSize_repaints false B s, setSize_refused_last_call B s, draw_m_dirty _⟩,
    ⟨?_, init_repaints false plane B startScale, init_refused_last_call plane B startScale,
      draw_m_dirty _⟩,
    ⟨mouseReleaseEvent_refused_m_plane e r, mouseReleaseEvent_repaints false e r hr,
      mouseReleaseEvent_refused_last_call e r hr, mouseReleaseEvent_m_dirty false e r hr⟩⟩
  · rw [setSize_m_plane]
    unfold grow
    split
    · simp only [reinit_painter, plane_fb_reallocate]
      split <;> rfl
    · rfl
  · unfold init
    rw [draw_m_plane]
    exact grow_refused_m_plane _ _

/-- C6, amended, on the item of `main.cpp`: the device refuses every request;
the release of a drag from `(45,45)` to `(65,55)` is the commit with a
hypothesis, and the item is then in a resize. -/
theorem C6_refused_reallocation_still_draws_witness :
    (box2.mousePressEvent (leftAt 45 45)).m_resize = true ∧
    (((box2.mousePressEvent (leftAt 45 45)).mouseMoveEvent (leftAt 65 55)).mouseReleaseEvent false
        (leftAt 65 55)).m_plane =
      ((box2.mousePressEvent (leftAt 45 45)).mouseMoveEvent (leftAt 65 55)).m_plane ∧
    (((box2.mousePressEvent (leftAt 45 45)).mouseMoveEvent (leftAt 65 55)).mouseReleaseEvent false
        (leftAt 65 55)).m_dirty.isNull = true :=
  have hp : (box2.mousePressEvent (leftAt 45 45)).m_resize = true := by
    rw [box2_eq]
    norm_num [mousePressEvent, leftAt, gripRect, GRIP_SIZE, QRectF.contains, QRectF.leftEdge,
      QRectF.rightEdge, QRectF.topEdge, QRectF.bottomEdge]
  have hr : ((box2.mousePressEvent (leftAt 45 45)).mouseMoveEvent (leftAt 65 55)).m_resize =
      true := by
    obtain ⟨b, hb⟩ := mouseMoveEvent_eq (leftAt 65 55) (box2.mousePressEvent (leftAt 45 45))
    rw [hb]
    exact hp
  have h := C6_refused_reallocation_still_draws ⟨0, 0, 70, 60⟩ box2 panel 1 (leftAt 65 55)
    ((box2.mousePressEvent (leftAt 45 45)).mouseMoveEvent (leftAt 65 55)) hr
  ⟨hp, h.2.2.2.1, h.2.2.2.2.2.2⟩

/-! ## C7: committing a smaller bounding -/

theorem united_containsRect (a b : QRectF) (ha : 0 < a.w ∧ 0 < a.h) (hb : 0 < b.w ∧ 0 < b.h) :
    (a.united b).containsRect a = true ∧ (a.united b).containsRect b = true := by
  have n1 : ¬ a.w < 0 := not_lt.mpr ha.1.le
  have n2 : ¬ a.h < 0 := not_lt.mpr ha.2.le
  have n3 : ¬ b.w < 0 := not_lt.mpr hb.1.le
  have n4 : ¬ b.h < 0 := not_lt.mpr hb.2.le
  have z1 : ¬ a.w = 0 := ne_of_gt ha.1
  have z3 : ¬ b.w = 0 := ne_of_gt hb.1
  have hx : min a.xp b.xp < max (a.xp + a.w) (b.xp + b.w) :=
    lt_of_le_of_lt (min_le_left _ _) (lt_of_lt_of_le (by linarith) (le_max_left _ _))
  have hy : min a.yp b.yp < max (a.yp + a.h) (b.yp + b.h) :=
    lt_of_le_of_lt (min_le_left _ _) (lt_of_lt_of_le (by linarith) (le_max_left _ _))
  have eu : a.united b = ⟨min a.xp b.xp, min a.yp b.yp,
      max (a.xp + a.w) (b.xp + b.w) - min a.xp b.xp,
      max (a.yp + a.h) (b.yp + b.h) - min a.yp b.yp⟩ := by
    simp [QRectF.united, QRectF.isNull, QRectF.leftEdge, QRectF.rightEdge, QRectF.topEdge,
      QRectF.bottomEdge, n1, n2, n3, n4, z1, z3]
  have w1 : ¬ (max (a.xp + a.w) (b.xp + b.w) - min a.xp b.xp < 0) := by linarith
  have w2 : ¬ (max (a.yp + a.h) (b.yp + b.h) - min a.yp b.yp < 0) := by linarith
  rw [eu]
  constructor
  · simp only [QRectF.containsRect, QRectF.leftEdge, QRectF.rightEdge, QRectF.topEdge,
      QRectF.bottomEdge, n1, n2, w1, w2, if_false]
    have := le_max_left (a.xp + a.w) (b.xp + b.w)
    have := le_max_left (a.yp + a.h) (b.yp + b.h)
    have := min_le_left a.xp b.xp
    have := min_le_left a.yp b.yp
    rw [if_neg (by linarith), if_neg (by linarith), if_neg (by rintro (h | h) <;> linarith),
      if_neg (by linarith), if_neg (by linarith), if_neg (by rintro (h | h) <;> linarith)]
  · simp only [QRectF.containsRect, QRectF.leftEdge, QRectF.rightEdge, QRectF.topEdge,
      QRectF.bottomEdge, n3, n4, w1, w2, if_false]
    have := le_max_right (a.xp + a.w) (b.xp + b.w)
    have := le_max_right (a.yp + a.h) (b.yp + b.h)
    have := min_le_right a.xp b.xp
    have := min_le_right a.yp b.yp
    rw [if_neg (by linarith), if_neg (by linarith), if_neg (by rintro (h | h) <;> linarith),
      if_neg (by linarith), if_neg (by linarith), if_neg (by rintro (h | h) <;> linarith)]

theorem grow_of_size_differs (ok : Bool) (b : QRectF) (s : MyGraphicsPlaneItem)
    (h : ((toInt s.m_plane.width : ℚ) ≠ b.w) ∨ ((toInt s.m_plane.height : ℚ) ≠ b.h)) :
    grow ok b s =
      { s with
        m_plane := plane_fb_reallocate ok s.m_plane (toUInt32 b.w) (toUInt32 b.h)
        m_fb := some ⟨(plane_fb_reallocate ok s.m_plane (toUInt32 b.w) (toUInt32 b.h)).width,
          (plane_fb_reallocate ok s.m_plane (toUInt32 b.w) (toUInt32 b.h)).height⟩
        calls := s.calls ++ [Call.fb_reallocate (toUInt32 b.w) (toUInt32 b.h) ok, Call.fb_map,
          Call.moveEvent]
        m_dirty := if s.m_dirty.isNull then ⟨0, 0, b.w, b.h⟩
          else s.m_dirty.united ⟨0, 0, b.w, b.h⟩ } := by
  unfold grow
  rw [if_pos h]
  simp only [reinit_painter]
  by_cases hd : s.m_dirty.isNull = true <;> simp [hd]

/-- C7, as stated, fails: after committing `(0,0,100,100)` on the item of
`main.cpp`, `setSize(QRectF(100,100,40,40))` enters `draw` with `m_dirty` equal
to `(0,0,100,100)`, which contains neither the new bounding nor the union of
both: `grow` adds the rectangle of the new size at the origin, not the new
bounding. -/
theorem C7_offset_bounding_counterexample :
    ((box2.setSize true ⟨0, 0, 100, 100⟩).setSize true ⟨100, 100, 40, 40⟩).calls.getLast? =
      some (Call.draw ⟨0, 0, 100, 100⟩ ⟨100, 100, 40, 40⟩ 40 40 (some ⟨40, 40⟩)) ∧
    QRectF.containsRect ⟨0, 0, 100, 100⟩
      (QRectF.united ⟨0, 0, 100, 100⟩ ⟨100, 100, 40, 40⟩) = false := by
  have e1 : toUInt32 100 = 100 := toUInt32_natCast 100 (by norm_num)
  have e2 : toUInt32 40 = 40 := toUInt32_natCast 40 (by norm_num)
  constructor
  · rw [box2_eq]
    norm_num [setSize, grow, draw, reinit_painter, plane_fb_reallocate, toInt, boundingRect,
      QRectF.isNull, QRectF.null, QRectF.united, QRectF.leftEdge, QRectF.rightEdge,
      QRectF.topEdge, QRectF.bottomEdge, e1, e2]
  · norm_num [QRectF.containsRect, QRectF.united, QRectF.isNull, QRectF.leftEdge,
      QRectF.rightEdge, QRectF.topEdge, QRectF.bottomEdge]

theorem mouseReleaseEvent_m_plane_of_resize (ok : Bool) (e : QGraphicsSceneMouseEvent)
    (s : MyGraphicsPlaneItem) (hr : s.m_resize = true) :
    (mouseReleaseEvent ok e s).m_plane = (grow ok s.m_bounding s).m_plane := by
  unfold mouseReleaseEvent
  rw [if_pos hr]
  simp only [draw]
  split <;> split <;> try split
  all_goals rfl

/-- C7, amended: let `P` be a committed bounding of positive size (the buffer
has its size and `m_dirty` is null) and let `N = (0,0,n,m)` be a bounding at
the origin with positive whole-number sizes below `2^31`, smaller than `P` in
width or in height, and let the device satisfy the reallocation.  When `N` is
committed by `setSize(N)` from the item `s`, or by the release of a resize
that began at `P` and whose live bounding is `N` (item `r`), `draw` is entered
with `m_dirty` equal to the union of `P` and `N`, which contains both, and
with a buffer of `N`'s size, which is the buffer size after the commit. -/
theorem C7_shrink_dirty_covers_both (P : QRectF) (n m : Nat) (s r : MyGraphicsPlaneItem)
    (e : QGraphicsSceneMouseEvent)
    (hn : n < 2 ^ 31) (hm : m < 2 ^ 31) (hn0 : 0 < n) (hm0 : 0 < m)
    (hP : 0 < P.w ∧ 0 < P.h) (hsmall : (n : ℚ) < P.w ∨ (m : ℚ) < P.h)
    (hsb : s.m_bounding = P) (hsd : s.m_dirty.isNull = true)
    (hsp : (toInt s.m_plane.width : ℚ) = P.w ∧ (toInt s.m_plane.height : ℚ) = P.h)
    (hrr : r.m_resize = true) (hro : r.m_boundingOrig = P)
    (hrb : r.m_bounding = ⟨0, 0, n, m⟩) (hrd : r.m_dirty.isNull = true)
    (hrp : (toInt r.m_plane.width : ℚ) = P.w ∧ (toInt r.m_plane.height : ℚ) = P.h) :
    ((s.setSize true ⟨0, 0, n, m⟩).calls.getLast? =
        some (Call.draw (P.united ⟨0, 0, n, m⟩) ⟨0, 0, n, m⟩ n m (some ⟨n, m⟩)) ∧
      (P.united ⟨0, 0, n, m⟩).containsRect P = true ∧
      (P.united ⟨0, 0, n, m⟩).containsRect ⟨0, 0, n, m⟩ = true ∧
      bufferSizeIs (s.setSize true ⟨0, 0, n, m⟩) ⟨0, 0, n, m⟩) ∧
    ((r.mouseReleaseEvent true e).calls.getLast? =
        some (Call.draw (QRectF.united ⟨0, 0, n, m⟩ P) ⟨0, 0, n, m⟩ n m (some ⟨n, m⟩)) ∧
      (QRectF.united ⟨0, 0, n, m⟩ P).containsRect P = true ∧
      (QRectF.united ⟨0, 0, n, m⟩ P).containsRect ⟨0, 0, n, m⟩ = true ∧
      bufferSizeIs (r.mouseReleaseEvent true e) ⟨0, 0, n, m⟩) := by
  have e1 : toUInt32 (n : ℚ) = n := toUInt32_natCast n (by omega)
  have e2 : toUInt32 (m : ℚ) = m := toUInt32_natCast m (by omega)
  have hN : (0 : ℚ) < (n : ℚ) ∧ (0 : ℚ) < (m : ℚ) := ⟨by exact_mod_cast hn0, by exact_mod_cast hm0⟩
  have hPn : P.isNull = false := by
    have : ¬ P.w = 0 := ne_of_gt hP.1
    simp [QRectF.isNull, this]
  have hNn : QRectF.isNull ⟨0, 0, n, m⟩ = false := by
    have : ¬ (n : ℚ) = 0 := ne_of_gt hN.1
    simp [QRectF.isNull, this]
  have c1 := united_containsRect P ⟨0, 0, n, m⟩ hP hN
  have c2 := united_containsRect ⟨0, 0, n, m⟩ P hN hP
  have hds : ((toInt s.m_plane.width : ℚ) ≠ (n : ℚ)) ∨ ((toInt s.m_plane.height : ℚ) ≠ (m : ℚ)) := by
    rcases hsmall with h | h
    · left; rw [hsp.1]; exact ne_of_gt h
    · right; rw [hsp.2]; exact ne_of_gt h
  have hdr : ((toInt r.m_plane.width : ℚ) ≠ (n : ℚ)) ∨ ((toInt r.m_plane.height : ℚ) ≠ (m : ℚ)) := by
    rcases hsmall with h | h
    · left; rw [hrp.1]; exact ne_of_gt h
    · right; rw [hrp.2]; exact ne_of_gt h
  have hshrink : P.w > (n : ℚ) ∨ P.h > (m : ℚ) := hsmall
  refine ⟨⟨?_, c1.1, c1.2, ?_⟩, ⟨?_, c2.2, c2.1, ?_⟩⟩
  · unfold setSize
    dsimp only
    rw [if_pos hsd, draw_last_call, grow_of_size_differs true _ _ hds]
    simp [hsb, hPn, plane_fb_reallocate, e1, e2]
  · unfold bufferSizeIs
    rw [setSize_m_plane, grow_of_size_differs true _ _ hds]
    simp [plane_fb_reallocate, e1, e2]
  · unfold mouseReleaseEvent
    rw [if_pos hrr]
    dsimp only
    rw [grow_of_size_differs true _ _ (by rw [hrb]; exact hdr)]
    dsimp only
    rw [if_pos (by rw [hro, hrb]; exact hshrink), draw_calls]
    simp [hrd, hrb, hro, hNn, plane_fb_reallocate, e1, e2]
  · unfold bufferSizeIs
    rw [mouseReleaseEvent_m_plane_of_resize true e r hrr,
      grow_of_size_differs true _ _ (by rw [hrb]; exact hdr)]
    simp [hrb, plane_fb_reallocate, e1, e2]

theorem committed100_eq : committed100 =
    { box2 with
      m_plane := ⟨100, 100⟩
      m_bounding := ⟨0, 0, 100, 100⟩
      m_fb := some ⟨100, 100⟩
      calls := box2.calls ++ [Call.fb_reallocate 100 100 true, Call.fb_map, Call.moveEvent,
        Call.draw ⟨0, 0, 100, 100⟩ ⟨0, 0, 100, 100⟩ 100 100 (some ⟨100, 100⟩)] } := by
  have e1 : toUInt32 100 = 100 := toUInt32_natCast 100 (by norm_num)
  rw [committed100, box2_eq]
  norm_num [setSize, grow, draw, reinit_painter, plane_fb_reallocate, toInt, boundingRect,
    QRectF.isNull, QRectF.null, QRectF.united, QRectF.leftEdge, QRectF.rightEdge,
    QRectF.topEdge, QRectF.bottomEdge, e1]

theorem shrinking_eq : shrinking =
    { committed100 with
      m_resize := true
      m_offset := ⟨95, 95⟩
      m_boundingOrig := ⟨0, 0, 100, 100⟩
      m_bounding := ⟨0, 0, 40, 40⟩ } := by
  rw [shrinking, committed100_eq, box2_eq]
  norm_num [mousePressEvent, mouseMoveEvent, leftAt, gripRect, GRIP_SIZE, QRectF.contains,
    QRectF.leftEdge, QRectF.rightEdge, QRectF.topEdge, QRectF.bottomEdge]

/-- C7, amended, at the sizes the spec names: `P = (0,0,100,100)` committed on
the item of `main.cpp`, then `N = (0,0,40,40)` committed by `setSize` and by
the release of a drag. -/
theorem C7_shrink_dirty_covers_both_witness :
    ((committed100.setSize true ⟨0, 0, ((40 : Nat) : ℚ), ((40 : Nat) : ℚ)⟩).calls.getLast? =
        some (Call.draw (QRectF.united ⟨0, 0, 100, 100⟩ ⟨0, 0, ((40 : Nat) : ℚ), ((40 : Nat) : ℚ)⟩)
          ⟨0, 0, ((40 : Nat) : ℚ), ((40 : Nat) : ℚ)⟩ 40 40 (some ⟨40, 40⟩)) ∧
      bufferSizeIs (committed100.setSize true ⟨0, 0, ((40 : Nat) : ℚ), ((40 : Nat) : ℚ)⟩)
        ⟨0, 0, ((40 : Nat) : ℚ), ((40 : Nat) : ℚ)⟩) ∧
    ((shrinking.mouseReleaseEvent true (leftAt 35 35)).calls.getLast? =
        some (Call.draw (QRectF.united ⟨0, 0, ((40 : Nat) : ℚ), ((40 : Nat) : ℚ)⟩ ⟨0, 0, 100, 100⟩)
          ⟨0, 0, ((40 : Nat) : ℚ), ((40 : Nat) : ℚ)⟩ 40 40 (some ⟨40, 40⟩)) ∧
      bufferSizeIs (shrinking.mouseReleaseEvent true (leftAt 35 35))
        ⟨0, 0, ((40 : Nat) : ℚ), ((40 : Nat) : ℚ)⟩) :=
  have h := C7_shrink_dirty_covers_both ⟨0, 0, 100, 100⟩ 40 40 committed100 shrinking
    (leftAt 35 35) (by norm_num) (by norm_num) (by norm_num) (by norm_num)
    (by norm_num) (by norm_num)
    (by rw [committed100_eq]) (by rw [committed100_eq, box2_eq]; simp [QRectF.isNull, QRectF.null])
    (by rw [committed100_eq]; norm_num [toInt])
    (by rw [shrinking_eq]) (by rw [shrinking_eq]) (by rw [shrinking_eq]; norm_num)
    (by rw [shrinking_eq, committed100_eq, box2_eq]; simp [QRectF.isNull, QRectF.null])
    (by rw [shrinking_eq, committed100_eq]; norm_num [toInt])
  ⟨⟨h.1.1, h.1.2.2.2⟩, ⟨h.2.1, h.2.2.2.2⟩⟩

end MyGraphicsPlaneItem

/-! ## C8: which press starts a resize -/

theorem MyGraphicsPlaneItem.draw_m_bounding (s : MyGraphicsPlaneItem) :
    s.draw.m_bounding = s.m_bounding := by
  unfold MyGraphicsPlaneItem.draw
  split <;> rfl

theorem MyGraphicsPlaneItem.draw_m_resize (s : MyGraphicsPlaneItem) :
    s.draw.m_resize = s.m_resize := by
  unfold MyGraphicsPlaneItem.draw
  split <;> rfl

theorem MyGraphicsPlaneItem.grow_m_resize (ok : Bool) (b : QRectF) (s : MyGraphicsPlaneItem) :
    (s.grow ok b).m_resize = s.m_resize := by
  unfold MyGraphicsPlaneItem.grow
  split
  · simp only [MyGraphicsPlaneItem.reinit_painter]; split <;> rfl
  · rfl

theorem MyGraphicsPlaneItem.init_m_bounding (ok : Bool) (plane : plane_data) (b : QRectF) (q : ℚ) :
    (MyGraphicsPlaneItem.init plane b q ok).m_bounding = b ∧
    (MyGraphicsPlaneItem.init plane b q ok).m_resize = false := by
  unfold MyGraphicsPlaneItem.init
  dsimp only
  rw [MyGraphicsPlaneItem.draw_m_bounding, MyGraphicsPlaneItem.grow_m_bounding,
    MyGraphicsPlaneItem.draw_m_resize, MyGraphicsPlaneItem.grow_m_resize]
  exact ⟨rfl, rfl⟩

/-- C8, as stated, fails: on items whose bounding is `(10,10,50,50)` a
left-button press at the item position `(55,55)` lies in the `GRIP_SIZE` square
anchored at the bounding's bottom-right corner `(60,60)`, yet neither item
enters the resizing state: the handlers test the square that ends at
`(width, height)`, here `(0,0)`-`(50,50)`. -/
theorem C8_offset_bounding_counterexample :
    (gripHotZone offsetPlaneItem.m_bounding).contains (leftAt 55 55).pos = true ∧
    offsetPlaneItem.m_resize = false ∧
    (offsetPlaneItem.mousePressEvent (leftAt 55 55)).m_resize = false ∧
    (gripHotZone offsetItem.m_bounding).contains (leftAt 55 55).pos = true ∧
    offsetItem.m_resize = false ∧
    (offsetItem.mousePressEvent (leftAt 55 55)).m_resize = false := by
  have hb := MyGraphicsPlaneItem.init_m_bounding true panel ⟨10, 10, 50, 50⟩ 1
  refine ⟨?_, hb.2, ?_, ?_, rfl, ?_⟩
  · rw [offsetPlaneItem, hb.1]
    norm_num [gripHotZone, GRIP_SIZE, leftAt, QRectF.contains, QRectF.leftEdge,
      QRectF.rightEdge, QRectF.topEdge, QRectF.bottomEdge]
  · unfold MyGraphicsPlaneItem.mousePressEvent
    rw [offsetPlaneItem, hb.1, hb.2]
    norm_num [gripRect, GRIP_SIZE, leftAt, QRectF.contains, QRectF.leftEdge,
      QRectF.rightEdge, QRectF.topEdge, QRectF.bottomEdge, hb.2]
  · norm_num [offsetItem, MyGraphicsItem.init, gripHotZone, GRIP_SIZE, leftAt, QRectF.contains,
      QRectF.leftEdge, QRectF.rightEdge, QRectF.topEdge, QRectF.bottomEdge]
  · norm_num [offsetItem, MyGraphicsItem.init, MyGraphicsItem.mousePressEvent, gripRect,
      GRIP_SIZE, leftAt, QRectF.contains, QRectF.leftEdge, QRectF.rightEdge, QRectF.topEdge,
      QRectF.bottomEdge]

/-- C8, amended: for every left-button press received while no resize is in
progress, `mousePressEvent` enters the resizing state exactly when the
item-local press point lies in the `GRIP_SIZE` square whose bottom-right
corner is the item-local point `(w, h)`; in that case it records the press's
scene position in `m_offset` and the current bounding in `m_boundingOrig`, and
otherwise it changes nothing.  That square is the one anchored at the
bottom-right corner of the bounding whenever the bounding's top-left corner
is the origin.  This holds for the plane item `s` and the software item `t`. -/
theorem C8_press_in_grip_starts_resize (e : QGraphicsSceneMouseEvent)
    (s : MyGraphicsPlaneItem) (t : MyGraphicsItem)
    (hs : s.m_resize = false) (ht : t.m_resize = false) (hl : e.leftButton = true) :
    (((s.mousePressEvent e).m_resize = true ↔ (gripRect s.m_bounding).contains e.pos = true) ∧
      ((gripRect s.m_bounding).contains e.pos = true →
        (s.mousePressEvent e).m_offset = e.scenePos ∧
        (s.mousePressEvent e).m_boundingOrig = s.m_bounding) ∧
      ((gripRect s.m_bounding).contains e.pos = false → s.mousePressEvent e = s) ∧
      (s.m_bounding.xp = 0 ∧ s.m_bounding.yp = 0 →
        gripRect s.m_bounding = gripHotZone s.m_bounding)) ∧
    (((t.mousePressEvent e).m_resize = true ↔ (gripRect t.m_bounding).contains e.pos = true) ∧
      ((gripRect t.m_bounding).contains e.pos = true →
        (t.mousePressEvent e).m_offset = e.scenePos ∧
        (t.mousePressEvent e).m_boundingOrig = t.m_bounding) ∧
      ((gripRect t.m_bounding).contains e.pos = false → t.mousePressEvent e = t) ∧
      (t.m_bounding.xp = 0 ∧ t.m_bounding.yp = 0 →
        gripRect t.m_bounding = gripHotZone t.m_bounding)) := by
  refine ⟨⟨?_, ?_, ?_, ?_⟩, ⟨?_, ?_, ?_, ?_⟩⟩
  · by_cases hg : (gripRect s.m_bounding).contains e.pos = true
    · simp [MyGraphicsPlaneItem.mousePressEvent, hs, hl, hg]
    · simp [MyGraphicsPlaneItem.mousePressEvent, hs, hl, hg]
  · intro hg
    simp [MyGraphicsPlaneItem.mousePressEvent, hs, hl, hg]
  · intro hg
    simp [MyGraphicsPlaneItem.mousePressEvent, hs, hl, hg]
  · intro h
    simp [gripRect, gripHotZone, h.1, h.2]
  · by_cases hg : (gripRect t.m_bounding).contains e.pos = true
    · simp [MyGraphicsItem.mousePressEvent, ht, hl, hg]
    · simp [MyGraphicsItem.mousePressEvent, ht, hl, hg]
  · intro hg
    simp [MyGraphicsItem.mousePressEvent, ht, hl, hg]
  · intro hg
    simp [MyGraphicsItem.mousePressEvent, ht, hl, hg]
  · intro h
    simp [gripRect, gripHotZone, h.1, h.2]

/-- C8, amended, on the two items of `main.cpp` and a press at `(45,45)`. -/
theorem C8_press_in_grip_starts_resize_witness :
    (box2.m_resize = false ∧ box1.m_resize = false ∧ (leftAt 45 45).leftButton = true) ∧
    ((box2.mousePressEvent (leftAt 45 45)).m_resize = true ↔
      (gripRect box2.m_bounding).contains (leftAt 45 45).pos = true) ∧
    ((box1.mousePressEvent (leftAt 45 45)).m_resize = true ↔
      (gripRect box1.m_bounding).contains (leftAt 45 45).pos = true) :=
  have hs : box2.m_resize = false := by rw [MyGraphicsPlaneItem.box2_eq]
  have ht : box1.m_resize = false := rfl
  have hl : (leftAt 45 45).leftButton = true := rfl
  have h := C8_press_in_grip_starts_resize (leftAt 45 45) box2 box1 hs ht hl
  ⟨⟨hs, ht, hl⟩, h.1.1, h.2.1⟩

/-! ## C9: the buffer size at each repaint -/

theorem run_cancelledResize :
    (run box2 cancelledResize).calls.getLast? =
      some (Call.draw QRectF.null ⟨0, 0, 70, 60⟩ 50 50 (some ⟨50, 50⟩)) ∧
    (run box2 cancelledResize).m_bounding = ⟨0, 0, 70, 60⟩ ∧
    (run box2 cancelledResize).m_plane = ⟨50, 50⟩ ∧
    reallocations (run box2 cancelledResize).calls = reallocations box2.calls := by
  rw [MyGraphicsPlaneItem.box2_eq]
  norm_num [run, step, cancelledResize, leftAt, pinchEvent, MyGraphicsPlaneItem.mousePressEvent,
    MyGraphicsPlaneItem.mouseMoveEvent, MyGraphicsPlaneItem.mouseReleaseEvent,
    MyGraphicsPlaneItem.pinchTriggered, MyGraphicsPlaneItem.itemChange,
    MyGraphicsPlaneItem.draw, MyGraphicsPlaneItem.boundingRect, gripRect, GRIP_SIZE,
    QRectF.contains, QRectF.leftEdge, QRectF.rightEdge, QRectF.topEdge, QRectF.bottomEdge,
    QRectF.isNull, QRectF.null, reallocations, Call.isReallocate, List.countP_cons]

theorem MyGraphicsPlaneItem.grow_m_plane_eq (ok : Bool) (b : QRectF) (s : MyGraphicsPlaneItem) :
    (s.grow ok b).m_plane =
      if ((toInt s.m_plane.width : ℚ) ≠ b.w) ∨ ((toInt s.m_plane.height : ℚ) ≠ b.h) then
        plane_fb_reallocate ok s.m_plane (toUInt32 b.w) (toUInt32 b.h)
      else s.m_plane := by
  unfold MyGraphicsPlaneItem.grow
  split
  · simp only [MyGraphicsPlaneItem.reinit_painter]; split <;> rfl
  · rfl

/-- C9 at the run `cancelledResize` on the item of `main.cpp`: the drag changes
the bounding to `(0,0,70,60)`, the pinch clears `m_resize`, so the release
does not call `grow`, and the repaint that `itemChange` runs when the
selection is lost happens with the plane buffer still 50 by 50.  No
`plane_fb_reallocate` has been called since construction, and the last call is
this run of `draw`, which is not at the bounding's size. -/
theorem C9_cancelled_resize_draws_on_stale_buffer :
    (run box2 cancelledResize).calls.getLast? =
      some (Call.draw QRectF.null ⟨0, 0, 70, 60⟩ 50 50 (some ⟨50, 50⟩)) ∧
    ¬ (Call.draw QRectF.null ⟨0, 0, 70, 60⟩ 50 50 (some ⟨50, 50⟩)).atBoundingSize ∧
    (run box2 cancelledResize).m_bounding = ⟨0, 0, 70, 60⟩ ∧
    (run box2 cancelledResize).m_plane = ⟨50, 50⟩ ∧
    reallocations (run box2 cancelledResize).calls = reallocations box2.calls := by
  refine ⟨run_cancelledResize.1, ?_, run_cancelledResize.2.1, run_cancelledResize.2.2.1,
    run_cancelledResize.2.2.2⟩
  norm_num [Call.atBoundingSize]

/-- The commit paths call `grow` before `draw`: in every state whose plane
sizes fit `uint32_t`, the run of `draw` made by `setSize` (item `s`), by
construction, or by the release of a resize (item `r`) comes after `grow` with
the current bounding in the same handler; so when that bounding `B` has
whole-number width and height below `2^31` and the device satisfies the
reallocation, that run of `draw` happens with the plane buffer size equal to
`B`'s size. -/
theorem commit_draws_at_bounding_size (B : QRectF) (n m : Nat)
    (hw : B.w = n) (hh : B.h = m) (hn : n < 2 ^ 31) (hm : m < 2 ^ 31)
    (s : MyGraphicsPlaneItem) (hs : s.m_plane.inRange)
    (plane : plane_data) (hp : plane.inRange) (startScale : ℚ)
    (r : MyGraphicsPlaneItem) (e : QGraphicsSceneMouseEvent)
    (hrr : r.m_resize = true) (hrb : r.m_bounding = B) (hrp : r.m_plane.inRange) :
    (∃ d fb, (s.setSize true B).calls.getLast? = some (Call.draw d B n m fb)) ∧
    (∃ d fb, (MyGraphicsPlaneItem.init plane B startScale true).calls.getLast? =
      some (Call.draw d B n m fb)) ∧
    (∃ d fb, (r.mouseReleaseEvent true e).calls.getLast? = some (Call.draw d B n m fb)) ∧
    (∀ d fb, (Call.draw d B n m fb).atBoundingSize) := by
  refine ⟨?_, ?_, ?_, ?_⟩
  · have hg := MyGraphicsPlaneItem.grow_m_plane B s n m hw hh hn hm hs
    rw [MyGraphicsPlaneItem.grow_m_plane_eq] at hg
    unfold MyGraphicsPlaneItem.setSize
    dsimp only
    rw [MyGraphicsPlaneItem.draw_last_call, MyGraphicsPlaneItem.grow_m_bounding,
      MyGraphicsPlaneItem.grow_m_plane_eq]
    split
    all_goals
      dsimp only
      rw [hg]
      exact ⟨_, _, rfl⟩
  · unfold MyGraphicsPlaneItem.init
    dsimp only
    rw [MyGraphicsPlaneItem.draw_last_call, MyGraphicsPlaneItem.grow_m_bounding,
      MyGraphicsPlaneItem.grow_m_plane B _ n m hw hh hn hm hp]
    exact ⟨_, _, rfl⟩
  · subst hrb
    have hg := MyGraphicsPlaneItem.grow_m_plane r.m_bounding r n m hw hh hn hm hrp
    unfold MyGraphicsPlaneItem.mouseReleaseEvent
    rw [if_pos hrr]
    dsimp only
    split <;> try split
    all_goals
      rw [MyGraphicsPlaneItem.draw_last_call]
      simp only [MyGraphicsPlaneItem.grow_m_bounding, hg]
      exact ⟨_, _, rfl⟩
  · intro d fb
    exact ⟨hw.symm, hh.symm⟩

/-- The commit paths on the item of `main.cpp`: `setSize`, construction and the
release of a drag to `(0,0,70,60)` repaint a 70 by 60 buffer. -/
theorem commit_draws_at_bounding_size_example :
    ((box2.mousePressEvent (leftAt 45 45)).mouseMoveEvent (leftAt 65 55)).m_resize = true ∧
    ((box2.mousePressEvent (leftAt 45 45)).mouseMoveEvent (leftAt 65 55)).m_bounding =
      ⟨0, 0, 70, 60⟩ ∧
    (∃ d fb, (box2.setSize true ⟨0, 0, 70, 60⟩).calls.getLast? =
      some (Call.draw d ⟨0, 0, 70, 60⟩ 70 60 fb)) ∧
    (∃ d fb, (((box2.mousePressEvent (leftAt 45 45)).mouseMoveEvent
      (leftAt 65 55)).mouseReleaseEvent true (leftAt 65 55)).calls.getLast? =
      some (Call.draw d ⟨0, 0, 70, 60⟩ 70 60 fb)) :=
  have hst : (box2.mousePressEvent (leftAt 45 45)).mouseMoveEvent (leftAt 65 55) =
      { box2 with m_resize := true, m_offset := ⟨45, 45⟩, m_boundingOrig := ⟨0, 0, 50, 50⟩,
                  m_bounding := ⟨0, 0, 70, 60⟩ } := by
    rw [MyGraphicsPlaneItem.box2_eq]
    norm_num [MyGraphicsPlaneItem.mousePressEvent, MyGraphicsPlaneItem.mouseMoveEvent, leftAt,
      gripRect, GRIP_SIZE, QRectF.contains, QRectF.leftEdge, QRectF.rightEdge, QRectF.topEdge,
      QRectF.bottomEdge]
  have hr : ((box2.mousePressEvent (leftAt 45 45)).mouseMoveEvent (leftAt 65 55)).m_resize =
      true := by rw [hst]
  have hb : ((box2.mousePressEvent (leftAt 45 45)).mouseMoveEvent (leftAt 65 55)).m_bounding =
      ⟨0, 0, 70, 60⟩ := by rw [hst]
  have hi : box2.m_plane.inRange := by
    rw [MyGraphicsPlaneItem.box2_eq]; simp [plane_data.inRange]
  have h := commit_draws_at_bounding_size ⟨0, 0, 70, 60⟩ 70 60 (by simp) (by simp)
    (by norm_num) (by norm_num) box2 hi panel (by simp [plane_data.inRange, panel]) 1
    ((box2.mousePressEvent (leftAt 45 45)).mouseMoveEvent (leftAt 65 55)) (leftAt 65 55) hr hb
    (by rw [hst]; exact hi)
  ⟨hr, hb, h.1, h.2.2.1⟩

/-! ## C10: the dirty rectangle between events -/

theorem contains_of_isNull (r : QRectF) (h : r.isNull = true) (p : QPointF) :
    r.contains p = false := by
  simp only [QRectF.isNull, Bool.and_eq_true, decide_eq_true_eq] at h
  simp [QRectF.contains, QRectF.leftEdge, QRectF.rightEdge, h.1]

theorem draw_manipulation (s : MyGraphicsPlaneItem) : s.draw.manipulation = s.manipulation := by
  unfold MyGraphicsPlaneItem.draw
  split <;> rfl

theorem grow_manipulation (ok : Bool) (b : QRectF) (s : MyGraphicsPlaneItem) :
    (s.grow ok b).manipulation = s.manipulation := by
  unfold MyGraphicsPlaneItem.grow
  split
  · simp only [MyGraphicsPlaneItem.reinit_painter]
    split <;> rfl
  · rfl

theorem setSize_manipulation (ok : Bool) (b : QRectF) (s : MyGraphicsPlaneItem) :
    (s.setSize ok b).manipulation = s.manipulation.setSize b := by
  unfold MyGraphicsPlaneItem.setSize
  dsimp only
  rw [draw_manipulation, grow_manipulation]
  split <;> rfl

theorem mousePressEvent_manipulation (e : QGraphicsSceneMouseEvent) (s : MyGraphicsPlaneItem) :
    (s.mousePressEvent e).manipulation = s.manipulation.mousePressEvent e := by
  unfold MyGraphicsPlaneItem.mousePressEvent MyGraphicsItem.mousePressEvent
  by_cases h1 : (!s.m_resize && e.leftButton) = true
  · by_cases h2 : (gripRect s.m_bounding).contains e.pos = true
    · simp [MyGraphicsPlaneItem.manipulation, h1, h2]
    · simp [MyGraphicsPlaneItem.manipulation, h1, h2]
  · simp [MyGraphicsPlaneItem.manipulation, h1]

theorem mouseMoveEvent_manipulation (e : QGraphicsSceneMouseEvent) (s : MyGraphicsPlaneItem) :
    (s.mouseMoveEvent e).manipulation = s.manipulation.mouseMoveEvent e := by
  unfold MyGraphicsPlaneItem.mouseMoveEvent MyGraphicsItem.mouseMoveEvent
  dsimp only
  by_cases h1 : (s.m_resize && e.leftButton) = true
  · by_cases h2 : s.m_boundingOrig.w + (e.scenePos.xp - s.m_offset.xp) > 0 ∧
        s.m_boundingOrig.h + (e.scenePos.yp - s.m_offset.yp) > 0
    · simp [MyGraphicsPlaneItem.manipulation, h1, h2]
    · simp [MyGraphicsPlaneItem.manipulation, h1, h2]
  · simp [MyGraphicsPlaneItem.manipulation, h1]

theorem mouseReleaseEvent_manipulation (ok : Bool) (e : QGraphicsSceneMouseEvent)
    (s : MyGraphicsPlaneItem) :
    (s.mouseReleaseEvent ok e).manipulation = s.manipulation.mouseReleaseEvent e := by
  unfold MyGraphicsPlaneItem.mouseReleaseEvent MyGraphicsItem.mouseReleaseEvent
  by_cases hr : s.m_resize = true
  · rw [if_pos hr]
    dsimp only
    have hd : ∀ u : MyGraphicsPlaneItem,
        ({ u.draw with m_resize := false } : MyGraphicsPlaneItem).manipulation =
          { u.manipulation with m_resize := false } := by
      intro u
      unfold MyGraphicsPlaneItem.draw
      split <;> rfl
    rw [hd]
    have hg := grow_manipulation ok s.m_bounding s
    split
    · split
      · exact congrArg (fun m : MyGraphicsItem => { m with m_resize := false }) hg
      · exact congrArg (fun m : MyGraphicsItem => { m with m_resize := false }) hg
    · exact congrArg (fun m : MyGraphicsItem => { m with m_resize := false }) hg
  · rw [if_neg hr]
    have : s.m_resize = false := by simpa using hr
    simp [MyGraphicsPlaneItem.manipulation, this]

theorem pinchTriggered_manipulation (g : QPinchGesture) (s : MyGraphicsPlaneItem) :
    (s.pinchTriggered g).manipulation = s.manipulation.pinchTriggered g := by
  unfold MyGraphicsPlaneItem.pinchTriggered MyGraphicsItem.pinchTriggered
  dsimp only
  split <;> rfl

theorem itemChange_manipulation (change : GraphicsItemChange) (value : Bool)
    (s : MyGraphicsPlaneItem) : (s.itemChange change value).manipulation = s.manipulation := by
  unfold MyGraphicsPlaneItem.itemChange
  split
  · rw [draw_manipulation]
    rfl
  · rfl

theorem step_manipulation (s : MyGraphicsPlaneItem) (e : Event) :
    (step s e).manipulation = s.manipulation.step e := by
  cases e with
  | setSize ok bounding => exact setSize_manipulation ok bounding s
  | mousePress event => exact mousePressEvent_manipulation event s
  | mouseMove event => exact mouseMoveEvent_manipulation event s
  | mouseRelease ok event => exact mouseReleaseEvent_manipulation ok event s
  | pinch gesture => exact pinchTriggered_manipulation gesture s
  | itemChange change value => exact itemChange_manipulation change value s

theorem run_manipulation (events : List Event) (s : MyGraphicsPlaneItem) :
    (run s events).manipulation = s.manipulation.run events := by
  induction events generalizing s with
  | nil => rfl
  | cons e es ih =>
    rw [run, List.foldl_cons, MyGraphicsItem.run, List.foldl_cons, ← step_manipulation]
    exact ih (step s e)

theorem init_manipulation (plane : plane_data) (B : QRectF) (q : ℚ) (ok : Bool) :
    (MyGraphicsPlaneItem.init plane B q ok).manipulation = MyGraphicsItem.init B q := by
  unfold MyGraphicsPlaneItem.init
  dsimp only
  rw [draw_manipulation, grow_manipulation]
  rfl

/-! ## C11: resizing and pinch-scaling at the same time -/

theorem step_exclusive (t : MyGraphicsItem) (e : Event) (h : t.exclusive = true)
    (hp : (t.m_gestureResize && gripPress t.m_bounding e) = false) :
    (t.step e).exclusive = true := by
  cases e with
  | setSize ok bounding => exact h
  | mousePress event =>
    simp only [MyGraphicsItem.step, MyGraphicsItem.mousePressEvent]
    split
    · split
      · rename_i h1 h2
        simp only [Bool.and_eq_true] at h1
        simp only [gripPress, h1.2, h2, Bool.and_self, Bool.and_true] at hp
        simp [MyGraphicsItem.exclusive, hp]
      · exact h
    · exact h
  | mouseMove event =>
    simp only [MyGraphicsItem.step, MyGraphicsItem.mouseMoveEvent]
    split
    · split
      · exact h
      · exact h
    · exact h
  | mouseRelease ok event => simp [MyGraphicsItem.step, MyGraphicsItem.mouseReleaseEvent,
      MyGraphicsItem.exclusive]
  | pinch gesture =>
    simp only [MyGraphicsItem.step, MyGraphicsItem.pinchTriggered]
    split <;> simp [MyGraphicsItem.exclusive]
  | itemChange change value => exact h

theorem run_exclusive (events : List Event) (t : MyGraphicsItem) (h : t.exclusive = true)
    (hp : pressesOutsidePinch t events = true) : (t.run events).exclusive = true := by
  induction events generalizing t with
  | nil => exact h
  | cons e es ih =>
    simp only [pressesOutsidePinch, Bool.and_eq_true, Bool.not_eq_true'] at hp
    rw [MyGraphicsItem.run, List.foldl_cons]
    exact ih (t.step e) (step_exclusive t e h hp.1) hp.2

theorem pressesOutsidePinch_take (events : List Event) (t : MyGraphicsItem) (k : Nat)
    (hp : pressesOutsidePinch t events = true) :
    pressesOutsidePinch t (events.take k) = true := by
  induction events generalizing t k with
  | nil => simp [pressesOutsidePinch]
  | cons e es ih =>
    cases k with
    | zero => simp [pressesOutsidePinch]
    | succ k =>
      simp only [pressesOutsidePinch, Bool.and_eq_true, Bool.not_eq_true'] at hp
      simp only [List.take_succ_cons, pressesOutsidePinch, Bool.and_eq_true, Bool.not_eq_true']
      exact ⟨hp.1, ih (t.step e) k hp.2⟩

theorem pinchTriggered_m_resize (g : QPinchGesture) (s : MyGraphicsPlaneItem)
    (t : MyGraphicsItem) :
    (s.pinchTriggered g).m_resize = false ∧ (t.pinchTriggered g).m_resize = false := by
  constructor
  · unfold MyGraphicsPlaneItem.pinchTriggered
    dsimp only
    split <;> rfl
  · unfold MyGraphicsItem.pinchTriggered
    dsimp only
    split <;> rfl

/-- C11, as stated, fails: when a pinch has started on the items of
`main.cpp` and a left-button press then lands on the grip at `(45,45)`, both
items have `m_resize` and `m_gestureResize` set at once.  `mousePressEvent`
tests `m_resize` only; nothing reads `m_gestureResize`. -/
theorem C11_press_during_pinch_counterexample :
    ((run box2 pressDuringPinch).m_resize = true ∧
      (run box2 pressDuringPinch).m_gestureResize = true) ∧
    ((box1.run pressDuringPinch).m_resize = true ∧
      (box1.run pressDuringPinch).m_gestureResize = true) := by
  have h1 : box1.run pressDuringPinch =
      { box1 with m_resize := true, m_gestureResize := true, m_offset := ⟨45, 45⟩,
                  m_boundingOrig := ⟨0, 0, 50, 50⟩, m_startScale := 1, movable := false } := by
    norm_num [box1, MyGraphicsItem.init, MyGraphicsItem.run, MyGraphicsItem.step,
      pressDuringPinch, pinchEvent, leftAt, MyGraphicsItem.pinchTriggered,
      MyGraphicsItem.mousePressEvent, gripRect, GRIP_SIZE, QRectF.contains, QRectF.leftEdge,
      QRectF.rightEdge, QRectF.topEdge, QRectF.bottomEdge]
  have h2 : (run box2 pressDuringPinch).manipulation = box1.run pressDuringPinch := by
    rw [run_manipulation, box2, init_manipulation]
    rfl
  have hr : (run box2 pressDuringPinch).m_resize = (box1.run pressDuringPinch).m_resize :=
    congrArg MyGraphicsItem.m_resize h2
  have hg : (run box2 pressDuringPinch).m_gestureResize =
      (box1.run pressDuringPinch).m_gestureResize :=
    congrArg MyGraphicsItem.m_gestureResize h2
  rw [hr, hg, h1]
  exact ⟨⟨rfl, rfl⟩, ⟨rfl, rfl⟩⟩

/-- C11, amended: in every state reached from construction by a sequence of
events (`setSize`, press, move, release, pinch, selection change) in which no
left-button press lands on the grip while a pinch is active, the item is
never resizing and pinch-scaling at the same time: `m_resize` and
`m_gestureResize` are not both set, after the whole sequence and after each
of its prefixes, for the plane item and for the software item.  And a pinch
event received in any of these states leaves `m_resize` unset. -/
theorem C11_flags_exclusive_outside_pinch_press (plane : plane_data) (B : QRectF)
    (startScale : ℚ) (ok : Bool) (events : List Event) (g : QPinchGesture)
    (h : pressesOutsidePinch (MyGraphicsItem.init B startScale) events = true) :
    (∀ k, (run (MyGraphicsPlaneItem.init plane B startScale ok) (events.take k)).exclusive = true ∧
      ((MyGraphicsItem.init B startScale).run (events.take k)).exclusive = true) ∧
    ((run (MyGraphicsPlaneItem.init plane B startScale ok) events).exclusive = true ∧
      ((MyGraphicsItem.init B startScale).run events).exclusive = true) ∧
    (((run (MyGraphicsPlaneItem.init plane B startScale ok) events).pinchTriggered g).m_resize =
        false ∧
      (((MyGraphicsItem.init B startScale).run events).pinchTriggered g).m_resize = false) := by
  have soft : ∀ evs : List Event, pressesOutsidePinch (MyGraphicsItem.init B startScale) evs = true →
      ((MyGraphicsItem.init B startScale).run evs).exclusive = true :=
    fun evs hp => run_exclusive evs _ rfl hp
  have hard : ∀ evs : List Event,
      (run (MyGraphicsPlaneItem.init plane B startScale ok) evs).exclusive =
        ((MyGraphicsItem.init B startScale).run evs).exclusive := by
    intro evs
    have hm := run_manipulation evs (MyGraphicsPlaneItem.init plane B startScale ok)
    rw [init_manipulation] at hm
    exact congrArg MyGraphicsItem.exclusive hm
  refine ⟨?_, ⟨?_, soft events h⟩, pinchTriggered_m_resize g _ _⟩
  · intro k
    have hk := soft (events.take k) (pressesOutsidePinch_take events _ k h)
    exact ⟨(hard _).trans hk, hk⟩
  · exact (hard events).trans (soft events h)

/-- C11, amended, on the items of `main.cpp` and a drag that a pinch
interrupts (`dragThenPinch`): the press comes before the pinch starts. -/
theorem C11_flags_exclusive_outside_pinch_press_witness :
    pressesOutsidePinch (MyGraphicsItem.init ⟨0, 0, 50, 50⟩ 1) dragThenPinch = true ∧
    (run (MyGraphicsPlaneItem.init panel ⟨0, 0, 50, 50⟩ 1 true) dragThenPinch).exclusive = true ∧
    ((MyGraphicsItem.init ⟨0, 0, 50, 50⟩ 1).run dragThenPinch).exclusive = true :=
  have h : pressesOutsidePinch (MyGraphicsItem.init ⟨0, 0, 50, 50⟩ 1) dragThenPinch = true := by
    norm_num [pressesOutsidePinch, dragThenPinch, gripPress, MyGraphicsItem.init,
      MyGraphicsItem.step, pinchEvent, leftAt, MyGraphicsItem.pinchTriggered,
      MyGraphicsItem.mousePressEvent, MyGraphicsItem.mouseMoveEvent,
      MyGraphicsItem.mouseReleaseEvent, gripRect, GRIP_SIZE, QRectF.contains, QRectF.leftEdge,
      QRectF.rightEdge, QRectF.topEdge, QRectF.bottomEdge]
  ⟨h, (C11_flags_exclusive_outside_pinch_press panel ⟨0, 0, 50, 50⟩ 1 true dragThenPinch
    (pinchEvent GestureState.GestureStarted 1) h).2.1⟩

/-! ## C12: the two items share their manipulation state -/

/-- A plane item and a software item in the same manipulation state stay in the
same manipulation state: for every sequence of events, when both are
constructed with the same bounding and `m_startScale` holds the same value in
both, all members of the manipulation state agree after the sequence and after
each of its prefixes; and the manipulation state of a plane item started
anywhere evolves as that of a software item started in the same manipulation
state, whatever the plane, the device's answers and the dirty rectangle are. -/
theorem manipulation_agrees_from_same_start (plane : plane_data) (B : QRectF)
    (startScale : ℚ) (ok : Bool) (events : List Event) (s : MyGraphicsPlaneItem) :
    ((run (MyGraphicsPlaneItem.init plane B startScale ok) events).m_bounding =
        ((MyGraphicsItem.init B startScale).run events).m_bounding ∧
      (run (MyGraphicsPlaneItem.init plane B startScale ok) events).m_resize =
        ((MyGraphicsItem.init B startScale).run events).m_resize ∧
      (run (MyGraphicsPlaneItem.init plane B startScale ok) events).m_offset =
        ((MyGraphicsItem.init B startScale).run events).m_offset ∧
      (run (MyGraphicsPlaneItem.init plane B startScale ok) events).m_boundingOrig =
        ((MyGraphicsItem.init B startScale).run events).m_boundingOrig ∧
      (run (MyGraphicsPlaneItem.init plane B startScale ok) events).m_startScale =
        ((MyGraphicsItem.init B startScale).run events).m_startScale ∧
      (run (MyGraphicsPlaneItem.init plane B startScale ok) events).scale =
        ((MyGraphicsItem.init B startScale).run events).scale ∧
      (run (MyGraphicsPlaneItem.init plane B startScale ok) events).movable =
        ((MyGraphicsItem.init B startScale).run events).movable ∧
      (run (MyGraphicsPlaneItem.init plane B startScale ok) events).m_gestureResize =
        ((MyGraphicsItem.init B startScale).run events).m_gestureResize) ∧
    (∀ k, (run (MyGraphicsPlaneItem.init plane B startScale ok) (events.take k)).manipulation =
      (MyGraphicsItem.init B startScale).run (events.take k)) ∧
    (run s events).manipulation = s.manipulation.run events := by
  have hm : ∀ evs : List Event,
      (run (MyGraphicsPlaneItem.init plane B startScale ok) evs).manipulation =
        (MyGraphicsItem.init B startScale).run evs := by
    intro evs
    have h := run_manipulation evs (MyGraphicsPlaneItem.init plane B startScale ok)
    rw [init_manipulation] at h
    exact h
  have h := hm events
  exact ⟨⟨congrArg MyGraphicsItem.m_bounding h, congrArg MyGraphicsItem.m_resize h,
    congrArg MyGraphicsItem.m_offset h, congrArg MyGraphicsItem.m_boundingOrig h,
    congrArg MyGraphicsItem.m_startScale h, congrArg MyGraphicsItem.scale h,
    congrArg MyGraphicsItem.movable h, congrArg MyGraphicsItem.m_gestureResize h⟩,
    fun k => hm (events.take k), run_manipulation events s⟩

/-! ## C12: what the contents of `m_startScale` at construction change -/

theorem mousePressEvent_withScales (t : MyGraphicsItem) (x y : ℚ)
    (e : QGraphicsSceneMouseEvent) :
    (t.withScales x y).mousePressEvent e = (t.mousePressEvent e).withScales x y := by
  unfold MyGraphicsItem.mousePressEvent
  by_cases h1 : (!t.m_resize && e.leftButton) = true
  · by_cases h2 : (gripRect t.m_bounding).contains e.pos = true
    · simp [MyGraphicsItem.withScales, h1, h2]
    · simp [MyGraphicsItem.withScales, h1, h2]
  · simp [MyGraphicsItem.withScales, h1]

theorem mouseMoveEvent_withScales (t : MyGraphicsItem) (x y : ℚ)
    (e : QGraphicsSceneMouseEvent) :
    (t.withScales x y).mouseMoveEvent e = (t.mouseMoveEvent e).withScales x y := by
  unfold MyGraphicsItem.mouseMoveEvent
  dsimp only
  by_cases h1 : (t.m_resize && e.leftButton) = true
  · by_cases h2 : t.m_boundingOrig.w + (e.scenePos.xp - t.m_offset.xp) > 0 ∧
        t.m_boundingOrig.h + (e.scenePos.yp - t.m_offset.yp) > 0
    · simp [MyGraphicsItem.withScales, h1, h2]
    · simp [MyGraphicsItem.withScales, h1, h2]
  · simp [MyGraphicsItem.withScales, h1]

theorem withScales_self (t : MyGraphicsItem) : t.withScales t.m_startScale t.scale = t := by
  cases t
  rfl

/-- One event on two software items that differ at most in `m_startScale` and
in the scale leaves them differing at most there. -/
theorem step_withScales (t : MyGraphicsItem) (x y : ℚ) (e : Event) :
    ∃ x2 y2, (t.withScales x y).step e = (t.step e).withScales x2 y2 := by
  cases e with
  | setSize ok bounding => exact ⟨x, y, rfl⟩
  | mousePress event => exact ⟨x, y, mousePressEvent_withScales t x y event⟩
  | mouseMove event => exact ⟨x, y, mouseMoveEvent_withScales t x y event⟩
  | mouseRelease ok event => exact ⟨x, y, rfl⟩
  | pinch gesture =>
    obtain ⟨state, f⟩ := gesture
    cases state with
    | NoGesture => exact ⟨x, y, rfl⟩
    | GestureStarted => exact ⟨y, y, rfl⟩
    | GestureUpdated => exact ⟨x, f * x, rfl⟩
    | GestureFinished => exact ⟨x, y, rfl⟩
    | GestureCanceled => exact ⟨x, y, rfl⟩
  | itemChange change value => exact ⟨x, y, rfl⟩

theorem run_withScales (events : List Event) (t : MyGraphicsItem) (x y : ℚ) :
    ∃ x2 y2, (t.withScales x y).run events = (t.run events).withScales x2 y2 := by
  induction events generalizing t x y with
  | nil => exact ⟨x, y, rfl⟩
  | cons e es ih =>
    obtain ⟨x1, y1, h1⟩ := step_withScales t x y e
    obtain ⟨x2, y2, h2⟩ := ih (t.step e) x1 y1
    refine ⟨x2, y2, ?_⟩
    rw [MyGraphicsItem.run, List.foldl_cons, h1]
    exact h2

/-- One event on two software items that differ at most in `m_startScale`,
when the event is no gesture update or a gesture start has been seen and
`m_startScale` agrees: they differ at most in `m_startScale` afterwards, and
agree there once a gesture start has been seen. -/
theorem step_startScale (t : MyGraphicsItem) (x : ℚ) (e : Event) (st : Bool)
    (hu : (!e.isGestureUpdate || st) = true) (hx : st = true → x = t.m_startScale) :
    ∃ x2, (t.withScales x t.scale).step e = (t.step e).withScales x2 (t.step e).scale ∧
      ((st || e.isGestureStart) = true → x2 = (t.step e).m_startScale) := by
  cases e with
  | setSize ok bounding =>
    exact ⟨x, rfl, by simpa [Event.isGestureStart] using hx⟩
  | mousePress event =>
    refine ⟨x, ?_, ?_⟩
    · show (t.withScales x t.scale).mousePressEvent event = _
      rw [mousePressEvent_withScales]
      have hs : (t.mousePressEvent event).scale = t.scale := by
        unfold MyGraphicsItem.mousePressEvent
        split
        · split <;> rfl
        · rfl
      show _ = (t.mousePressEvent event).withScales x (t.mousePressEvent event).scale
      rw [hs]
    · have hm : (t.mousePressEvent event).m_startScale = t.m_startScale := by
        unfold MyGraphicsItem.mousePressEvent
        split
        · split <;> rfl
        · rfl
      show _ → x = (t.mousePressEvent event).m_startScale
      rw [hm]
      simpa [Event.isGestureStart] using hx
  | mouseMove event =>
    refine ⟨x, ?_, ?_⟩
    · show (t.withScales x t.scale).mouseMoveEvent event = _
      rw [mouseMoveEvent_withScales]
      have hs : (t.mouseMoveEvent event).scale = t.scale := by
        unfold MyGraphicsItem.mouseMoveEvent
        dsimp only
        split
        · split <;> rfl
        · rfl
      show _ = (t.mouseMoveEvent event).withScales x (t.mouseMoveEvent event).scale
      rw [hs]
    · have hm : (t.mouseMoveEvent event).m_startScale = t.m_startScale := by
        unfold MyGraphicsItem.mouseMoveEvent
        dsimp only
        split
        · split <;> rfl
        · rfl
      show _ → x = (t.mouseMoveEvent event).m_startScale
      rw [hm]
      simpa [Event.isGestureStart] using hx
  | mouseRelease ok event =>
    exact ⟨x, rfl, by simpa [Event.isGestureStart] using hx⟩
  | pinch gesture =>
    obtain ⟨state, f⟩ := gesture
    cases state with
    | NoGesture => exact ⟨x, rfl, by simpa [Event.isGestureStart] using hx⟩
    | GestureStarted => exact ⟨t.scale, rfl, fun _ => rfl⟩
    | GestureUpdated =>
      have hst : st = true := by simpa [Event.isGestureUpdate] using hu
      have hxe := hx hst
      subst hxe
      exact ⟨t.m_startScale, rfl, fun _ => rfl⟩
    | GestureFinished => exact ⟨x, rfl, by simpa [Event.isGestureStart] using hx⟩
    | GestureCanceled => exact ⟨x, rfl, by simpa [Event.isGestureStart] using hx⟩
  | itemChange change value =>
    exact ⟨x, rfl, by simpa [Event.isGestureStart] using hx⟩

theorem run_startScale (events : List Event) (t : MyGraphicsItem) (x : ℚ) (st : Bool)
    (hu : updatesFollowStart st events = true) (hx : st = true → x = t.m_startScale) :
    ∃ x2, (t.withScales x t.scale).run events =
        (t.run events).withScales x2 (t.run events).scale ∧
      ((st || sawGestureStart events) = true → x2 = (t.run events).m_startScale) := by
  induction events generalizing t x st with
  | nil =>
    refine ⟨x, rfl, ?_⟩
    simpa [sawGestureStart] using hx
  | cons e es ih =>
    simp only [updatesFollowStart, Bool.and_eq_true] at hu
    obtain ⟨x1, h1, hx1⟩ := step_startScale t x e st hu.1 hx
    obtain ⟨x2, h2, hx2⟩ := ih (t.step e) x1 (st || e.isGestureStart) hu.2 hx1
    refine ⟨x2, ?_, ?_⟩
    · rw [MyGraphicsItem.run, List.foldl_cons, h1]
      exact h2
    · intro hs
      apply hx2
      simpa [sawGestureStart, List.any_cons, Bool.or_assoc] using hs

theorem updatesFollowStart_take (events : List Event) (st : Bool) (k : Nat)
    (hu : updatesFollowStart st events = true) :
    updatesFollowStart st (events.take k) = true := by
  induction events generalizing st k with
  | nil => simp [updatesFollowStart]
  | cons e es ih =>
    cases k with
    | zero => simp [updatesFollowStart]
    | succ k =>
      simp only [updatesFollowStart, Bool.and_eq_true] at hu
      simp only [List.take_succ_cons, updatesFollowStart, Bool.and_eq_true]
      exact ⟨hu.1, ih _ k hu.2⟩

/-- C12, as stated, fails: neither constructor initialises `m_startScale`.  A
plane item and a software item constructed with the bounding `(0,0,50,50)`,
both with scale one, in which `m_startScale` happens to hold 2 and 1, differ
in the gesture-start scale from the start, and after one gesture update with
the total factor 3 that no gesture start precedes their scales are 6 and 3. -/
theorem C12_uninitialised_start_scale_counterexample :
    (MyGraphicsPlaneItem.init panel ⟨0, 0, 50, 50⟩ 2 true).m_bounding =
      (MyGraphicsItem.init ⟨0, 0, 50, 50⟩ 1).m_bounding ∧
    (MyGraphicsPlaneItem.init panel ⟨0, 0, 50, 50⟩ 2 true).scale =
      (MyGraphicsItem.init ⟨0, 0, 50, 50⟩ 1).scale ∧
    (MyGraphicsPlaneItem.init panel ⟨0, 0, 50, 50⟩ 2 true).m_startScale ≠
      (MyGraphicsItem.init ⟨0, 0, 50, 50⟩ 1).m_startScale ∧
    (run (MyGraphicsPlaneItem.init panel ⟨0, 0, 50, 50⟩ 2 true) updateWithoutStart).scale = 6 ∧
    ((MyGraphicsItem.init ⟨0, 0, 50, 50⟩ 1).run updateWithoutStart).scale = 3 := by
  have hm := init_manipulation panel ⟨0, 0, 50, 50⟩ 2 true
  have hr := run_manipulation updateWithoutStart
    (MyGraphicsPlaneItem.init panel ⟨0, 0, 50, 50⟩ 2 true)
  rw [hm] at hr
  refine ⟨congrArg MyGraphicsItem.m_bounding hm, congrArg MyGraphicsItem.scale hm, ?_, ?_, ?_⟩
  · have h := congrArg MyGraphicsItem.m_startScale hm
    show (MyGraphicsPlaneItem.init panel ⟨0, 0, 50, 50⟩ 2 true).manipulation.m_startScale ≠ _
    rw [h]
    norm_num [MyGraphicsItem.init]
  · have h := congrArg MyGraphicsItem.scale hr
    show (run (MyGraphicsPlaneItem.init panel ⟨0, 0, 50, 50⟩ 2 true)
      updateWithoutStart).manipulation.scale = 6
    rw [h]
    norm_num [MyGraphicsItem.init, MyGraphicsItem.run, MyGraphicsItem.step, updateWithoutStart,
      pinchEvent, MyGraphicsItem.pinchTriggered]
  · norm_num [MyGraphicsItem.init, MyGraphicsItem.run, MyGraphicsItem.step, updateWithoutStart,
      pinchEvent, MyGraphicsItem.pinchTriggered]

/-- C12, amended: let a plane item and a software item be constructed with the
same bounding (both then have scale one), whatever `m_startScale`, which
neither constructor initialises, holds in each (`q2` and `q1`).  After every
sequence of events (`setSize`, press, move, release, pinch, change of the
selection) and after each of its prefixes they have equal live bounding,
resize flag, drag offset, gesture-start bounding, movable flag and pinch flag.
When every gesture update in the sequence comes after a gesture start, they
also have equal scale after each prefix, and equal gesture-start scale after
each prefix that holds a gesture start.  When `m_startScale` holds the same
value in both at construction, the whole manipulation state is equal after
each prefix. -/
theorem C12_manipulation_agrees_up_to_start_scale (plane : plane_data) (B : QRectF)
    (q1 q2 : ℚ) (ok : Bool) (events : List Event) :
    (∀ k,
      (run (MyGraphicsPlaneItem.init plane B q2 ok) (events.take k)).m_bounding =
        ((MyGraphicsItem.init B q1).run (events.take k)).m_bounding ∧
      (run (MyGraphicsPlaneItem.init plane B q2 ok) (events.take k)).m_resize =
        ((MyGraphicsItem.init B q1).run (events.take k)).m_resize ∧
      (run (MyGraphicsPlaneItem.init plane B q2 ok) (events.take k)).m_offset =
        ((MyGraphicsItem.init B q1).run (events.take k)).m_offset ∧
      (run (MyGraphicsPlaneItem.init plane B q2 ok) (events.take k)).m_boundingOrig =
        ((MyGraphicsItem.init B q1).run (events.take k)).m_boundingOrig ∧
      (run (MyGraphicsPlaneItem.init plane B q2 ok) (events.take k)).movable =
        ((MyGraphicsItem.init B q1).run (events.take k)).movable ∧
      (run (MyGraphicsPlaneItem.init plane B q2 ok) (events.take k)).m_gestureResize =
        ((MyGraphicsItem.init B q1).run (events.take k)).m_gestureResize) ∧
    (updatesFollowStart false events = true → ∀ k,
      (run (MyGraphicsPlaneItem.init plane B q2 ok) (events.take k)).scale =
        ((MyGraphicsItem.init B q1).run (events.take k)).scale ∧
      (sawGestureStart (events.take k) = true →
        (run (MyGraphicsPlaneItem.init plane B q2 ok) (events.take k)).m_startScale =
          ((MyGraphicsItem.init B q1).run (events.take k)).m_startScale)) ∧
    (q1 = q2 → ∀ k,
      (run (MyGraphicsPlaneItem.init plane B q2 ok) (events.take k)).manipulation =
        (MyGraphicsItem.init B q1).run (events.take k)) := by
  have hm : ∀ evs : List Event,
      (run (MyGraphicsPlaneItem.init plane B q2 ok) evs).manipulation =
        (MyGraphicsItem.init B q2).run evs := by
    intro evs
    have h := run_manipulation evs (MyGraphicsPlaneItem.init plane B q2 ok)
    rw [init_manipulation] at h
    exact h
  have hi : MyGraphicsItem.init B q2 =
      (MyGraphicsItem.init B q1).withScales q2 (MyGraphicsItem.init B q1).scale := rfl
  refine ⟨?_, ?_, ?_⟩
  · intro k
    obtain ⟨x2, y2, h2⟩ := run_withScales (events.take k) (MyGraphicsItem.init B q1) q2
      (MyGraphicsItem.init B q1).scale
    have h := (hm (events.take k)).trans ((congrArg (fun t => t.run (events.take k)) hi).trans h2)
    exact ⟨congrArg MyGraphicsItem.m_bounding h, congrArg MyGraphicsItem.m_resize h,
      congrArg MyGraphicsItem.m_offset h, congrArg MyGraphicsItem.m_boundingOrig h,
      congrArg MyGraphicsItem.movable h, congrArg MyGraphicsItem.m_gestureResize h⟩
  · intro hu k
    obtain ⟨x2, h2, hx2⟩ := run_startScale (events.take k) (MyGraphicsItem.init B q1) q2 false
      (updatesFollowStart_take events false k hu) (fun hf => Bool.noConfusion hf)
    have h := (hm (events.take k)).trans ((congrArg (fun t => t.run (events.take k)) hi).trans h2)
    refine ⟨congrArg MyGraphicsItem.scale h, ?_⟩
    intro hs
    have hx := hx2 (by simpa using hs)
    exact (congrArg MyGraphicsItem.m_startScale h).trans hx
  · intro hq k
    subst hq
    exact hm (events.take k)

/-- C12, amended, on the items of `main.cpp` with the contents 1 and 2 in
`m_startScale` and the events `dragThenPinch`, in which the gesture update
follows a gesture start: after the whole sequence the scales agree and, the
sequence holding a gesture start, so do the gesture-start scales. -/
theorem C12_manipulation_agrees_up_to_start_scale_witness :
    updatesFollowStart false dragThenPinch = true ∧
    sawGestureStart dragThenPinch = true ∧
    (run (MyGraphicsPlaneItem.init panel ⟨0, 0, 50, 50⟩ 2 true) dragThenPinch).scale =
      ((MyGraphicsItem.init ⟨0, 0, 50, 50⟩ 1).run dragThenPinch).scale ∧
    (run (MyGraphicsPlaneItem.init panel ⟨0, 0, 50, 50⟩ 2 true) dragThenPinch).m_startScale =
      ((MyGraphicsItem.init ⟨0, 0, 50, 50⟩ 1).run dragThenPinch).m_startScale :=
  have hu : updatesFollowStart false dragThenPinch = true := by
    simp [updatesFollowStart, dragThenPinch, Event.isGestureUpdate, Event.isGestureStart,
      pinchEvent]
  have hs : sawGestureStart dragThenPinch = true := by
    simp [sawGestureStart, dragThenPinch, Event.isGestureStart, pinchEvent]
  have ht : dragThenPinch.take 6 = dragThenPinch := rfl
  have h := (C12_manipulation_agrees_up_to_start_scale panel ⟨0, 0, 50, 50⟩ 1 2 true
    dragThenPinch).2.1 hu 6
  ⟨hu, hs, by rw [ht] at h; exact h.1, by rw [ht] at h; exact h.2 hs⟩

end QtViewPlanes
